import Mathlib

/-!
Verification development for the jupiter-design-system styling library.

The Rust sources are shallowly embedded: every color provider is reduced to
its `ColorPalette` (the `ColorProvider` trait methods only read `palette()`),
builder structs become Lean structures, fluent setters become functions
`Builder → Builder`, and the terminal `classes()` / `build()` methods become
pure `String`-valued functions.  Rust string handling is modelled exactly:
`split_whitespace` as a character-level splitter dropping empty fragments,
`join(" ")` as interleaving single spaces, `Vec::sort` as `List.mergeSort`
on `String`s (UTF-8 byte order and code-point order agree), `Vec::dedup` as
removal of adjacent duplicates only, and `str::replace` as leftmost,
non-overlapping replacement of every occurrence.
-/

namespace Jupiter

/-! ## String and token machinery -/

/-- One step of the whitespace splitter: returns the (possibly empty) token
that starts the list together with the list of tokens after it. -/
def splitWsGo : List Char → List Char × List (List Char)
  | [] => ([], [])
  | c :: cs =>
    let r := splitWsGo cs
    if c.isWhitespace then
      ([], if r.1 = [] then r.2 else r.1 :: r.2)
    else (c :: r.1, r.2)

/-- `str::split_whitespace` on a character list: maximal runs of
non-whitespace characters, empty fragments dropped. -/
def splitWsChars (l : List Char) : List (List Char) :=
  let r := splitWsGo l
  if r.1 = [] then r.2 else r.1 :: r.2

/-- `str::split_whitespace().collect::<Vec<_>>()` for a Lean `String`. -/
def splitWs (s : String) : List String :=
  (splitWsChars s.data).map String.mk

/-- `Vec::<String>::join(" ")`. -/
def joinSp : List String → String
  | [] => ""
  | [t] => t
  | t :: t2 :: ts => t ++ " " ++ joinSp (t2 :: ts)

/-- `Vec::dedup`: removes only *consecutive* duplicate elements. -/
def dedupAdj : List String → List String
  | [] => []
  | [a] => [a]
  | a :: b :: rest =>
    if a = b then dedupAdj (b :: rest) else a :: dedupAdj (b :: rest)

/-- Decide `a ≤ b` on strings by comparing the underlying character lists
(code-point order, which agrees with Rust's byte-wise `Ord` on `String`);
the iterator-based default instance does not reduce inside the kernel. -/
instance (priority := 2000) decStrLe (a b : String) : Decidable (a ≤ b) :=
  decidable_of_iff (a.toList ≤ b.toList) String.le_iff_toList_le.symm

/-- Insertion of an element into a `≤`-sorted list of strings. -/
def insertSorted (a : String) : List String → List String
  | [] => [a]
  | b :: bs => if a ≤ b then a :: b :: bs else b :: insertSorted a bs

/-- `Vec::<String>::sort()` modelled as insertion sort.  Rust sorts by the
`Ord` instance of `String` (UTF-8 byte order), which coincides with Lean's
code-point order on `String`; since equal strings are indistinguishable,
any sorting algorithm over this order produces the same list. -/
def sortStr : List String → List String
  | [] => []
  | a :: as => insertSorted a (sortStr as)

/-- One fuel-counted step stream of `str::replace(pat, rep)`: scans left to
right, replacing each non-overlapping occurrence of `pat`.  The fuel is one
unit per consumed character, so `replaceAllChars` below never exhausts it. -/
def replaceGo (pat rep : List Char) : Nat → List Char → List Char
  | _, [] => []
  | 0, s => s
  | Nat.succ n, c :: cs =>
    if pat ≠ [] ∧ pat.isPrefixOf (c :: cs) then
      rep ++ replaceGo pat rep n (List.drop (pat.length - 1) cs)
    else c :: replaceGo pat rep n cs

/-- `str::replace(pat, rep)` on character lists.  (The `pat ≠ []` guard
mirrors the fact that the Rust callers only ever pass non-empty literal
patterns.) -/
def replaceAllChars (s pat rep : List Char) : List Char :=
  replaceGo pat rep s.length s

/-- `str::replace` lifted to `String`. -/
def replaceAll (s pat rep : String) : String :=
  String.mk (replaceAllChars s.data pat.data rep.data)

/-! ## Color system (`src/core/color.rs`) -/

/-- `Color`: semantic color tokens. -/
inductive Color where
  | Primary | Secondary | Accent
  | Success | Warning | Error | Info
  | Surface | Background | Foreground | Border
  | TextPrimary | TextSecondary | TextTertiary | TextInverse
  | Interactive | InteractiveHover | InteractiveActive | InteractiveDisabled
deriving DecidableEq, Repr

/-- `ColorPalette`: one string value per `Color` slot. -/
structure ColorPalette where
  primary : String
  secondary : String
  accent : String
  success : String
  warning : String
  error : String
  info : String
  surface : String
  background : String
  foreground : String
  border : String
  text_primary : String
  text_secondary : String
  text_tertiary : String
  text_inverse : String
  interactive : String
  interactive_hover : String
  interactive_active : String
  interactive_disabled : String
deriving DecidableEq, Repr

/-- `ColorProvider::resolve_color` (trait default method; every provider in
the crate just returns its stored palette, so providers are embedded as
their palettes). -/
def resolveColor (p : ColorPalette) : Color → String
  | Color.Primary => p.primary
  | Color.Secondary => p.secondary
  | Color.Accent => p.accent
  | Color.Success => p.success
  | Color.Warning => p.warning
  | Color.Error => p.error
  | Color.Info => p.info
  | Color.Surface => p.surface
  | Color.Background => p.background
  | Color.Foreground => p.foreground
  | Color.Border => p.border
  | Color.TextPrimary => p.text_primary
  | Color.TextSecondary => p.text_secondary
  | Color.TextTertiary => p.text_tertiary
  | Color.TextInverse => p.text_inverse
  | Color.Interactive => p.interactive
  | Color.InteractiveHover => p.interactive_hover
  | Color.InteractiveActive => p.interactive_active
  | Color.InteractiveDisabled => p.interactive_disabled

/-- `ColorProvider::text_class`. -/
def textClass (p : ColorPalette) (c : Color) : String :=
  "text-" ++ resolveColor p c

/-- `ColorProvider::bg_class`. -/
def bgClass (p : ColorPalette) (c : Color) : String :=
  "bg-" ++ resolveColor p c

/-- `ColorProvider::border_class`. -/
def borderClass (p : ColorPalette) (c : Color) : String :=
  "border-" ++ resolveColor p c

/-- `themes::VibeColors::default()` — the Jupiter palette defined in
`src/themes/mod.rs`. -/
def themesVibePalette : ColorPalette where
  primary := "jupiter-blue-500"
  secondary := "jupiter-green-500"
  accent := "jupiter-orange-500"
  success := "green-500"
  warning := "amber-500"
  error := "red-500"
  info := "blue-500"
  surface := "white"
  background := "gray-50"
  foreground := "gray-900"
  border := "gray-200"
  text_primary := "gray-900"
  text_secondary := "gray-600"
  text_tertiary := "gray-400"
  text_inverse := "white"
  interactive := "jupiter-blue-500"
  interactive_hover := "jupiter-blue-600"
  interactive_active := "jupiter-blue-700"
  interactive_disabled := "gray-300"

/-- `ButtonVariant`. -/
inductive ButtonVariant where
  | Primary | Secondary | Success | Warning | Error | Ghost | Link
deriving DecidableEq, Repr

/-- `ButtonState`. -/
inductive ButtonState where
  | Default | Hover | Active | Disabled | Loading
deriving DecidableEq, Repr

/-- `core::Size`. -/
inductive Size where
  | XSmall | Small | Medium | Large | XLarge
deriving DecidableEq, Repr

/-- `ButtonStyles<C>` (the generic provider is embedded as its palette;
the Rust fields `full_width`, `with_icon`, `custom_classes` are spelled
`fullWidth`, `withIcon`, `customClasses` so the fluent setters can keep the
source names). -/
structure ButtonStyles where
  variant : ButtonVariant
  size : Size
  state : ButtonState
  fullWidth : Bool
  withIcon : Bool
  customClasses : List String
  color_provider : ColorPalette
deriving DecidableEq, Repr

/-- `ButtonStyles::new`. -/
def ButtonStyles.new (p : ColorPalette) : ButtonStyles :=
  ⟨ButtonVariant.Primary, Size.Medium, ButtonState.Default, false, false, [], p⟩

/-- `ButtonStyles::primary`. -/
def ButtonStyles.primary (b : ButtonStyles) : ButtonStyles :=
  { b with variant := ButtonVariant.Primary }

/-- `ButtonStyles::secondary`. -/
def ButtonStyles.secondary (b : ButtonStyles) : ButtonStyles :=
  { b with variant := ButtonVariant.Secondary }

/-- `ButtonStyles::success`. -/
def ButtonStyles.success (b : ButtonStyles) : ButtonStyles :=
  { b with variant := ButtonVariant.Success }

/-- `ButtonStyles::warning`. -/
def ButtonStyles.warning (b : ButtonStyles) : ButtonStyles :=
  { b with variant := ButtonVariant.Warning }

/-- `ButtonStyles::error`. -/
def ButtonStyles.error (b : ButtonStyles) : ButtonStyles :=
  { b with variant := ButtonVariant.Error }

/-- `ButtonStyles::ghost`. -/
def ButtonStyles.ghost (b : ButtonStyles) : ButtonStyles :=
  { b with variant := ButtonVariant.Ghost }

/-- `ButtonStyles::link`. -/
def ButtonStyles.link (b : ButtonStyles) : ButtonStyles :=
  { b with variant := ButtonVariant.Link }

/-- `ButtonStyles::variant` (explicit setter). -/
def ButtonStyles.setVariant (b : ButtonStyles) (v : ButtonVariant) : ButtonStyles :=
  { b with variant := v }

/-- `ButtonStyles::variant_str`: the match arms in source order, with the
`_ => Primary` fallback. -/
def ButtonStyles.variant_str (b : ButtonStyles) (v : String) : ButtonStyles :=
  { b with variant :=
      if v = "primary" then ButtonVariant.Primary
      else if v = "secondary" then ButtonVariant.Secondary
      else if v = "outline" then ButtonVariant.Secondary
      else if v = "success" then ButtonVariant.Success
      else if v = "warning" then ButtonVariant.Warning
      else if v = "error" then ButtonVariant.Error
      else if v = "danger" then ButtonVariant.Error
      else if v = "ghost" then ButtonVariant.Ghost
      else if v = "link" then ButtonVariant.Link
      else if v = "water" then ButtonVariant.Primary
      else ButtonVariant.Primary }

/-- `ButtonStyles::extra_small`. -/
def ButtonStyles.extra_small (b : ButtonStyles) : ButtonStyles :=
  { b with size := Size.XSmall }

/-- `ButtonStyles::small`. -/
def ButtonStyles.small (b : ButtonStyles) : ButtonStyles :=
  { b with size := Size.Small }

/-- `ButtonStyles::medium`. -/
def ButtonStyles.medium (b : ButtonStyles) : ButtonStyles :=
  { b with size := Size.Medium }

/-- `ButtonStyles::large`. -/
def ButtonStyles.large (b : ButtonStyles) : ButtonStyles :=
  { b with size := Size.Large }

/-- `ButtonStyles::extra_large`. -/
def ButtonStyles.extra_large (b : ButtonStyles) : ButtonStyles :=
  { b with size := Size.XLarge }

/-- `ButtonStyles::size` (explicit setter). -/
def ButtonStyles.setSize (b : ButtonStyles) (s : Size) : ButtonStyles :=
  { b with size := s }

/-- `ButtonStyles::size_str` with the `_ => Medium` fallback. -/
def ButtonStyles.size_str (b : ButtonStyles) (s : String) : ButtonStyles :=
  { b with size :=
      if s = "xs" ∨ s = "extra_small" then Size.XSmall
      else if s = "sm" ∨ s = "small" then Size.Small
      else if s = "md" ∨ s = "medium" then Size.Medium
      else if s = "lg" ∨ s = "large" then Size.Large
      else if s = "xl" ∨ s = "extra_large" then Size.XLarge
      else Size.Medium }

/-- `ButtonStyles::disabled`. -/
def ButtonStyles.disabled (b : ButtonStyles) : ButtonStyles :=
  { b with state := ButtonState.Disabled }

/-- `ButtonStyles::loading`. -/
def ButtonStyles.loading (b : ButtonStyles) : ButtonStyles :=
  { b with state := ButtonState.Loading }

/-- `ButtonStyles::hover`. -/
def ButtonStyles.hover (b : ButtonStyles) : ButtonStyles :=
  { b with state := ButtonState.Hover }

/-- `ButtonStyles::active`. -/
def ButtonStyles.active (b : ButtonStyles) : ButtonStyles :=
  { b with state := ButtonState.Active }

/-- `ButtonStyles::state` (explicit setter). -/
def ButtonStyles.setState (b : ButtonStyles) (s : ButtonState) : ButtonStyles :=
  { b with state := s }

/-- `ButtonStyles::state_str` with the `_ => Default` fallback. -/
def ButtonStyles.state_str (b : ButtonStyles) (s : String) : ButtonStyles :=
  { b with state :=
      if s = "default" then ButtonState.Default
      else if s = "hover" then ButtonState.Hover
      else if s = "active" then ButtonState.Active
      else if s = "disabled" then ButtonState.Disabled
      else if s = "loading" then ButtonState.Loading
      else ButtonState.Default }

/-- `ButtonStyles::full_width`. -/
def ButtonStyles.full_width (b : ButtonStyles) : ButtonStyles :=
  { b with fullWidth := true }

/-- `ButtonStyles::with_icon`. -/
def ButtonStyles.with_icon (b : ButtonStyles) : ButtonStyles :=
  { b with withIcon := true }

/-- `ButtonStyles::custom`: pushes the raw string. -/
def ButtonStyles.custom (b : ButtonStyles) (c : String) : ButtonStyles :=
  { b with customClasses := b.customClasses ++ [c] }

/-- `ButtonStyles::custom_classes`: splits on whitespace and pushes each
non-empty fragment. -/
def ButtonStyles.custom_classes (b : ButtonStyles) (cs : String) : ButtonStyles :=
  { b with customClasses := b.customClasses ++ splitWs cs }

/-- `ButtonStyles::custom_vec`. -/
def ButtonStyles.custom_vec (b : ButtonStyles) (cs : List String) : ButtonStyles :=
  { b with customClasses := b.customClasses ++ cs }

/-- `ButtonStyles::get_base_classes`. -/
def ButtonStyles.get_base_classes (_b : ButtonStyles) : String :=
  "inline-flex items-center justify-center font-medium transition-colors duration-200 disabled:opacity-50 disabled:cursor-not-allowed"

/-- `ButtonStyles::get_size_classes`. -/
def ButtonStyles.get_size_classes (b : ButtonStyles) : String :=
  match b.size with
  | Size.XSmall => "px-2 py-1 text-xs rounded"
  | Size.Small => "px-3 py-1.5 text-sm rounded"
  | Size.Medium => "px-4 py-2 text-sm rounded-md"
  | Size.Large => "px-6 py-3 text-base rounded-md"
  | Size.XLarge => "px-8 py-4 text-lg rounded-lg"

/-- `ButtonStyles::get_variant_classes`. -/
def ButtonStyles.get_variant_classes (b : ButtonStyles) : String :=
  match b.variant with
  | ButtonVariant.Primary =>
      bgClass b.color_provider Color.Primary ++ " " ++
      textClass b.color_provider Color.TextInverse ++ " " ++
      ("hover:" ++ bgClass b.color_provider Color.InteractiveHover)
  | ButtonVariant.Secondary =>
      bgClass b.color_provider Color.Surface ++ " " ++
      textClass b.color_provider Color.TextPrimary ++ " " ++
      borderClass b.color_provider Color.Border ++ " " ++ "border"
  | ButtonVariant.Success =>
      bgClass b.color_provider Color.Success ++ " " ++
      textClass b.color_provider Color.TextInverse ++ " " ++ "hover:bg-green-600"
  | ButtonVariant.Warning =>
      bgClass b.color_provider Color.Warning ++ " " ++
      textClass b.color_provider Color.TextInverse ++ " " ++ "hover:bg-amber-600"
  | ButtonVariant.Error =>
      bgClass b.color_provider Color.Error ++ " " ++
      textClass b.color_provider Color.TextInverse ++ " " ++ "hover:bg-red-600"
  | ButtonVariant.Ghost =>
      "bg-transparent" ++ " " ++
      textClass b.color_provider Color.TextPrimary ++ " " ++
      ("hover:" ++ bgClass b.color_provider Color.Background)
  | ButtonVariant.Link =>
      "bg-transparent" ++ " " ++
      textClass b.color_provider Color.Primary ++ " " ++ "hover:underline"

/-- `ButtonStyles::get_state_classes`. -/
def ButtonStyles.get_state_classes (b : ButtonStyles) : String :=
  match b.state with
  | ButtonState.Default => ""
  | ButtonState.Hover => "hover:scale-105"
  | ButtonState.Active => "active:scale-95"
  | ButtonState.Disabled => "opacity-50 cursor-not-allowed"
  | ButtonState.Loading => "cursor-wait"

/-- The single string assembled by `format!` inside `ButtonStyles::build`
(one space between each component, empty components included). -/
def ButtonStyles.assembled (b : ButtonStyles) : String :=
  b.get_base_classes ++ " " ++ b.get_size_classes ++ " " ++
  b.get_variant_classes ++ " " ++ b.get_state_classes ++ " " ++
  (if b.fullWidth then "w-full" else "") ++ " " ++
  (if b.withIcon then "space-x-2" else "") ++ " " ++
  joinSp b.customClasses

/-- `ButtonStyles::build`: the assembled string, whitespace-split and
re-joined with single spaces (no sorting, no deduplication). -/
def ButtonStyles.build (b : ButtonStyles) : String :=
  joinSp (splitWs b.assembled)

/-- `ButtonStyles::classes` (alias for `build`). -/
def ButtonStyles.classes (b : ButtonStyles) : String := b.build

/-! ## Card builder (`src/builders/card.rs`, enums from
`src/patterns/card.rs`) -/

/-- `CardElevation`. -/
inductive CardElevation where
  | Flat | Subtle | Raised | Floating | Modal
deriving DecidableEq, Repr

/-- `CardSurface`. -/
inductive CardSurface where
  | Standard | Elevated | Branded | Glass | Dark | Transparent
deriving DecidableEq, Repr

/-- `CardSpacing`. -/
inductive CardSpacing where
  | None | Compact | Standard | Comfortable | Spacious
deriving DecidableEq, Repr

/-- `CardInteraction`. -/
inductive CardInteraction where
  | Static | Hoverable | Clickable | Selectable | Draggable
deriving DecidableEq, Repr

/-- `CardStyles<C>`. -/
structure CardStyles where
  elevation : CardElevation
  surface : CardSurface
  spacing : CardSpacing
  interaction : CardInteraction
  selected : Bool
  customClasses : List String
  color_provider : ColorPalette
deriving DecidableEq, Repr

/-- `CardStyles::new`. -/
def CardStyles.new (p : ColorPalette) : CardStyles :=
  ⟨CardElevation.Subtle, CardSurface.Standard, CardSpacing.Standard,
   CardInteraction.Static, false, [], p⟩

/-- `CardStyles::elevation_str` with the `_ => Subtle` fallback. -/
def CardStyles.elevation_str (b : CardStyles) (s : String) : CardStyles :=
  { b with elevation :=
      if s = "flat" ∨ s = "none" then CardElevation.Flat
      else if s = "subtle" ∨ s = "low" then CardElevation.Subtle
      else if s = "raised" ∨ s = "standard" then CardElevation.Raised
      else if s = "floating" ∨ s = "high" then CardElevation.Floating
      else if s = "modal" ∨ s = "highest" then CardElevation.Modal
      else CardElevation.Subtle }

/-- `CardStyles::surface_str` with the `_ => Standard` fallback. -/
def CardStyles.surface_str (b : CardStyles) (s : String) : CardStyles :=
  { b with surface :=
      if s = "standard" ∨ s = "white" then CardSurface.Standard
      else if s = "elevated" then CardSurface.Elevated
      else if s = "branded" ∨ s = "theme" then CardSurface.Branded
      else if s = "glass" then CardSurface.Glass
      else if s = "dark" then CardSurface.Dark
      else if s = "transparent" ∨ s = "clear" then CardSurface.Transparent
      else CardSurface.Standard }

/-- `CardStyles::spacing_str` with the `_ => Standard` fallback. -/
def CardStyles.spacing_str (b : CardStyles) (s : String) : CardStyles :=
  { b with spacing :=
      if s = "none" then CardSpacing.None
      else if s = "compact" ∨ s = "sm" then CardSpacing.Compact
      else if s = "standard" ∨ s = "md" then CardSpacing.Standard
      else if s = "comfortable" ∨ s = "lg" then CardSpacing.Comfortable
      else if s = "spacious" ∨ s = "xl" then CardSpacing.Spacious
      else CardSpacing.Standard }

/-- `CardStyles::interaction_str` with the `_ => Static` fallback. -/
def CardStyles.interaction_str (b : CardStyles) (s : String) : CardStyles :=
  { b with interaction :=
      if s = "static" ∨ s = "none" then CardInteraction.Static
      else if s = "hoverable" ∨ s = "hover" then CardInteraction.Hoverable
      else if s = "clickable" ∨ s = "click" then CardInteraction.Clickable
      else if s = "selectable" ∨ s = "select" then CardInteraction.Selectable
      else if s = "draggable" ∨ s = "drag" then CardInteraction.Draggable
      else CardInteraction.Static }

/-- `CardStyles::selected`. -/
def CardStyles.setSelected (b : CardStyles) (s : Bool) : CardStyles :=
  { b with selected := s }

/-- `CardStyles::custom`. -/
def CardStyles.custom (b : CardStyles) (c : String) : CardStyles :=
  { b with customClasses := b.customClasses ++ [c] }

/-- The elevation class string matched inside `CardStyles::build`. -/
def cardElevationClasses (e : CardElevation) : String :=
  match e with
  | CardElevation.Flat => "shadow-none"
  | CardElevation.Subtle => "shadow-sm"
  | CardElevation.Raised => "shadow-md"
  | CardElevation.Floating => "shadow-lg"
  | CardElevation.Modal => "shadow-2xl"

/-- The spacing class string matched inside `CardStyles::build`. -/
def cardSpacingClasses (sp : CardSpacing) : String :=
  match sp with
  | CardSpacing.None => "p-0"
  | CardSpacing.Compact => "p-3"
  | CardSpacing.Standard => "p-5"
  | CardSpacing.Comfortable => "p-6"
  | CardSpacing.Spacious => "p-8"

/-- `CardStyles::get_surface_classes`, parametrized by palette and surface. -/
def cardSurfaceClasses (p : ColorPalette) (su : CardSurface) : String :=
  match su with
  | CardSurface.Standard =>
      bgClass p Color.Surface ++ " " ++ textClass p Color.TextPrimary ++ " " ++
      borderClass p Color.Border
  | CardSurface.Elevated =>
      bgClass p Color.Background ++ " " ++ textClass p Color.TextPrimary ++ " " ++
      borderClass p Color.Border
  | CardSurface.Branded =>
      "bg-gradient-to-br from-jupiter-navy-900/80 to-jupiter-blue-900/80 border-white/10 text-white"
  | CardSurface.Glass =>
      "bg-white/10 backdrop-blur-md border-white/20 text-white"
  | CardSurface.Dark => "bg-gray-900 border-gray-700 text-white"
  | CardSurface.Transparent => "bg-transparent border-transparent"

/-- `CardStyles::get_surface_classes`. -/
def CardStyles.get_surface_classes (b : CardStyles) : String :=
  cardSurfaceClasses b.color_provider b.surface

/-- `CardStyles::get_interaction_classes`, parametrized by interaction. -/
def cardInteractionClasses (i : CardInteraction) : String :=
  match i with
  | CardInteraction.Static => ""
  | CardInteraction.Hoverable => "hover:scale-101 hover:shadow-sm"
  | CardInteraction.Clickable =>
      "cursor-pointer hover:scale-105 active:scale-95 focus:outline-none focus:ring-2 focus:ring-offset-2"
  | CardInteraction.Selectable =>
      "cursor-pointer hover:scale-101 focus:outline-none focus:ring-2 focus:ring-offset-2"
  | CardInteraction.Draggable => "cursor-move hover:scale-105 active:scale-95"

/-- `CardStyles::get_interaction_classes`. -/
def CardStyles.get_interaction_classes (b : CardStyles) : String :=
  cardInteractionClasses b.interaction

/-- The selection ring color string pushed by `CardStyles::build` when
`selected`: `format!("ring-{}", primary.replace("bg-", "").replace("-500", "-300"))`. -/
def CardStyles.selectionRing (b : CardStyles) : String :=
  "ring-" ++
    replaceAll (replaceAll (resolveColor b.color_provider Color.Primary) "bg-" "") "-500" "-300"

/-- The hover-elevation classes pushed by `CardStyles::build` for
hoverable/clickable cards. -/
def cardHoverClasses (i : CardInteraction) (e : CardElevation) : List String :=
  if i = CardInteraction.Hoverable ∨ i = CardInteraction.Clickable then
    match e with
    | CardElevation.Subtle => ["hover:shadow-md"]
    | CardElevation.Raised => ["hover:shadow-lg"]
    | CardElevation.Floating => ["hover:shadow-xl"]
    | _ => []
  else []

/-- The `all_classes` vector accumulated by `CardStyles::build`, in push
order (empty surface/interaction/custom strings are skipped, exactly as in
the source). -/
def CardStyles.allClasses (b : CardStyles) : List String :=
  ["rounded-lg border transition-all duration-300"]
  ++ [cardElevationClasses b.elevation]
  ++ (if b.get_surface_classes ≠ "" then [b.get_surface_classes] else [])
  ++ [cardSpacingClasses b.spacing]
  ++ (if b.get_interaction_classes ≠ "" then [b.get_interaction_classes] else [])
  ++ (if b.selected then ["ring-2 ring-offset-2", b.selectionRing] else [])
  ++ cardHoverClasses b.interaction b.elevation
  ++ (if joinSp b.customClasses ≠ "" then [joinSp b.customClasses] else [])

/-- `CardStyles::build`: join with spaces, whitespace-split, `sort`,
`dedup`, re-join. -/
def CardStyles.build (b : CardStyles) : String :=
  joinSp (dedupAdj (sortStr (splitWs (joinSp b.allClasses))))

/-- `CardStyles::classes` (alias for `build`). -/
def CardStyles.classes (b : CardStyles) : String := b.build

/-! ## Typography pattern (`src/patterns/typography.rs`) and text builder
(`src/builders/text.rs`) -/

/-- `TypographyHierarchy`. -/
inductive TypographyHierarchy where
  | Title | Heading | Subheading | H4 | Body | BodyLarge | BodySmall
  | Caption | Overline | Code
deriving DecidableEq, Repr

/-- `TypographySize`. -/
inductive TypographySize where
  | XS | SM | MD | LG | XL | XL2 | XL3 | XL4
deriving DecidableEq, Repr

/-- `TypographyWeight`. -/
inductive TypographyWeight where
  | Light | Normal | Medium | Semibold | Bold | ExtraBold
deriving DecidableEq, Repr

/-- `TypographyColor`. -/
inductive TypographyColor where
  | Primary | Secondary | Accent | Muted | Disabled | White | Black
  | Success | Warning | Error | Info | Auto
deriving DecidableEq, Repr

/-- `TypographyAlignment`. -/
inductive TypographyAlignment where
  | Left | Center | Right | Justify
deriving DecidableEq, Repr

/-- `TypographyOverflow`. -/
inductive TypographyOverflow where
  | Normal | Truncate | Clamp (lines : Nat)
deriving DecidableEq, Repr

/-- `TypographyElement`. -/
inductive TypographyElement where
  | Auto | H1 | H2 | H3 | H4 | H5 | H6 | P | Span | Div
deriving DecidableEq, Repr

/-- `TypographyPattern<T>`. -/
structure TypographyPattern where
  hierarchy : TypographyHierarchy
  size : Option TypographySize
  weight : Option TypographyWeight
  color : TypographyColor
  alignment : Option TypographyAlignment
  overflow : TypographyOverflow
  element : TypographyElement
  color_provider : ColorPalette
deriving DecidableEq, Repr

/-- `TypographyPattern::new`. -/
def TypographyPattern.new (p : ColorPalette) : TypographyPattern :=
  ⟨TypographyHierarchy.Body, none, none, TypographyColor.Auto, none,
   TypographyOverflow.Normal, TypographyElement.Auto, p⟩

/-- `TypographyPattern::get_hierarchy_classes`. -/
def TypographyPattern.get_hierarchy_classes (t : TypographyPattern) : String :=
  match t.hierarchy with
  | TypographyHierarchy.Title =>
      joinSp (["tracking-tight"]
        ++ (if t.size = none then ["text-4xl"] else [])
        ++ (if t.weight = none then ["font-bold"] else []))
  | TypographyHierarchy.Heading =>
      joinSp (["tracking-tight"]
        ++ (if t.size = none then ["text-3xl"] else [])
        ++ (if t.weight = none then ["font-bold"] else []))
  | TypographyHierarchy.Subheading =>
      joinSp (["tracking-tight"]
        ++ (if t.size = none then ["text-2xl"] else [])
        ++ (if t.weight = none then ["font-bold"] else []))
  | TypographyHierarchy.H4 =>
      joinSp (["tracking-tight"]
        ++ (if t.size = none then ["text-xl"] else [])
        ++ (if t.weight = none then ["font-bold"] else []))
  | TypographyHierarchy.Body =>
      joinSp ((if t.size = none then ["text-base"] else [])
        ++ (if t.weight = none then ["font-normal"] else []))
  | TypographyHierarchy.BodyLarge =>
      joinSp ((if t.size = none then ["text-lg"] else [])
        ++ (if t.weight = none then ["font-normal"] else []))
  | TypographyHierarchy.BodySmall =>
      joinSp ((if t.size = none then ["text-sm"] else [])
        ++ (if t.weight = none then ["font-normal"] else []))
  | TypographyHierarchy.Caption =>
      joinSp ((if t.size = none then ["text-sm"] else [])
        ++ (if t.weight = none then ["font-medium"] else []))
  | TypographyHierarchy.Overline =>
      joinSp (["uppercase", "tracking-wider"]
        ++ (if t.size = none then ["text-xs"] else [])
        ++ (if t.weight = none then ["font-medium"] else []))
  | TypographyHierarchy.Code =>
      joinSp (["font-mono", "bg-gray-100", "px-1", "py-0.5", "rounded"]
        ++ (if t.size = none then ["text-sm"] else []))

/-- `TypographyPattern::get_size_classes`. -/
def TypographyPattern.get_size_classes (s : TypographySize) : String :=
  match s with
  | TypographySize.XS => "text-xs"
  | TypographySize.SM => "text-sm"
  | TypographySize.MD => "text-base"
  | TypographySize.LG => "text-lg"
  | TypographySize.XL => "text-xl"
  | TypographySize.XL2 => "text-2xl"
  | TypographySize.XL3 => "text-3xl"
  | TypographySize.XL4 => "text-4xl"

/-- `TypographyPattern::get_weight_classes`. -/
def TypographyPattern.get_weight_classes (w : TypographyWeight) : String :=
  match w with
  | TypographyWeight.Light => "font-light"
  | TypographyWeight.Normal => "font-normal"
  | TypographyWeight.Medium => "font-medium"
  | TypographyWeight.Semibold => "font-semibold"
  | TypographyWeight.Bold => "font-bold"
  | TypographyWeight.ExtraBold => "font-extrabold"

/-- `TypographyPattern::get_color_classes`. -/
def TypographyPattern.get_color_classes (t : TypographyPattern) : String :=
  match t.color with
  | TypographyColor.Primary => textClass t.color_provider Color.Primary
  | TypographyColor.Secondary => textClass t.color_provider Color.Secondary
  | TypographyColor.Accent => textClass t.color_provider Color.Accent
  | TypographyColor.Muted => textClass t.color_provider Color.TextSecondary
  | TypographyColor.Disabled => textClass t.color_provider Color.InteractiveDisabled
  | TypographyColor.White => textClass t.color_provider Color.TextInverse
  | TypographyColor.Black => textClass t.color_provider Color.Foreground
  | TypographyColor.Success => textClass t.color_provider Color.Success
  | TypographyColor.Warning => textClass t.color_provider Color.Warning
  | TypographyColor.Error => textClass t.color_provider Color.Error
  | TypographyColor.Info => textClass t.color_provider Color.Info
  | TypographyColor.Auto =>
      match t.hierarchy with
      | TypographyHierarchy.Caption => textClass t.color_provider Color.TextSecondary
      | TypographyHierarchy.Overline => textClass t.color_provider Color.TextTertiary
      | _ => textClass t.color_provider Color.TextPrimary

/-- `TypographyPattern::get_alignment_classes`. -/
def TypographyPattern.get_alignment_classes (a : TypographyAlignment) : String :=
  match a with
  | TypographyAlignment.Left => "text-left"
  | TypographyAlignment.Center => "text-center"
  | TypographyAlignment.Right => "text-right"
  | TypographyAlignment.Justify => "text-justify"

/-- `TypographyPattern::get_overflow_classes`. -/
def TypographyPattern.get_overflow_classes (t : TypographyPattern) : String :=
  match t.overflow with
  | TypographyOverflow.Normal => ""
  | TypographyOverflow.Truncate => "truncate"
  | TypographyOverflow.Clamp _ => ""

/-- The `classes` vector accumulated by `TypographyPattern::classes`, in
push order. -/
def TypographyPattern.classVec (t : TypographyPattern) : List String :=
  ["leading-relaxed"]
  ++ (if t.get_hierarchy_classes ≠ "" then [t.get_hierarchy_classes] else [])
  ++ (match t.size with
      | some s => [TypographyPattern.get_size_classes s]
      | none => [])
  ++ (match t.weight with
      | some w => [TypographyPattern.get_weight_classes w]
      | none => [])
  ++ (if t.get_color_classes ≠ "" then [t.get_color_classes] else [])
  ++ (match t.alignment with
      | some a => [TypographyPattern.get_alignment_classes a]
      | none => [])
  ++ (if t.get_overflow_classes ≠ "" then [t.get_overflow_classes] else [])

/-- `TypographyPattern::classes`: join, whitespace-split, `sort`, `dedup`,
re-join. -/
def TypographyPattern.classes (t : TypographyPattern) : String :=
  joinSp (dedupAdj (sortStr (splitWs (joinSp t.classVec))))

/-- `TextStyles<T>`. -/
structure TextStyles where
  pattern : TypographyPattern
  customClasses : List String
deriving DecidableEq, Repr

/-- `TextStyles::new`. -/
def TextStyles.new (p : ColorPalette) : TextStyles :=
  ⟨TypographyPattern.new p, []⟩

/-- `TextStyles::hierarchy`. -/
def TextStyles.hierarchy (t : TextStyles) (h : TypographyHierarchy) : TextStyles :=
  { t with pattern := { t.pattern with hierarchy := h } }

/-- `TextStyles::hierarchy_str` with the `_ => Body` fallback. -/
def TextStyles.hierarchy_str (t : TextStyles) (s : String) : TextStyles :=
  t.hierarchy
    (if s = "title" then TypographyHierarchy.Title
     else if s = "heading" then TypographyHierarchy.Heading
     else if s = "subheading" then TypographyHierarchy.Subheading
     else if s = "h4" then TypographyHierarchy.H4
     else if s = "body" then TypographyHierarchy.Body
     else if s = "body-large" then TypographyHierarchy.BodyLarge
     else if s = "body-small" then TypographyHierarchy.BodySmall
     else if s = "caption" then TypographyHierarchy.Caption
     else if s = "overline" then TypographyHierarchy.Overline
     else if s = "code" then TypographyHierarchy.Code
     else TypographyHierarchy.Body)

/-- `TextStyles::size`. -/
def TextStyles.size (t : TextStyles) (s : TypographySize) : TextStyles :=
  { t with pattern := { t.pattern with size := some s } }

/-- `TextStyles::size_str`: unrecognized strings `return self` unchanged. -/
def TextStyles.size_str (t : TextStyles) (s : String) : TextStyles :=
  if s = "xs" then t.size TypographySize.XS
  else if s = "sm" then t.size TypographySize.SM
  else if s = "md" then t.size TypographySize.MD
  else if s = "lg" then t.size TypographySize.LG
  else if s = "xl" then t.size TypographySize.XL
  else if s = "2xl" then t.size TypographySize.XL2
  else if s = "3xl" then t.size TypographySize.XL3
  else if s = "4xl" then t.size TypographySize.XL4
  else t

/-- `TextStyles::weight`. -/
def TextStyles.weight (t : TextStyles) (w : TypographyWeight) : TextStyles :=
  { t with pattern := { t.pattern with weight := some w } }

/-- `TextStyles::weight_str`: unrecognized strings `return self` unchanged. -/
def TextStyles.weight_str (t : TextStyles) (s : String) : TextStyles :=
  if s = "light" then t.weight TypographyWeight.Light
  else if s = "normal" then t.weight TypographyWeight.Normal
  else if s = "medium" then t.weight TypographyWeight.Medium
  else if s = "semibold" then t.weight TypographyWeight.Semibold
  else if s = "bold" then t.weight TypographyWeight.Bold
  else if s = "extrabold" then t.weight TypographyWeight.ExtraBold
  else t

/-- `TextStyles::color`. -/
def TextStyles.color (t : TextStyles) (c : TypographyColor) : TextStyles :=
  { t with pattern := { t.pattern with color := c } }

/-- `TextStyles::color_str`: unrecognized strings `return self` unchanged. -/
def TextStyles.color_str (t : TextStyles) (s : String) : TextStyles :=
  if s = "primary" then t.color TypographyColor.Primary
  else if s = "secondary" then t.color TypographyColor.Secondary
  else if s = "accent" then t.color TypographyColor.Accent
  else if s = "muted" then t.color TypographyColor.Muted
  else if s = "disabled" then t.color TypographyColor.Disabled
  else if s = "white" then t.color TypographyColor.White
  else if s = "black" then t.color TypographyColor.Black
  else if s = "success" then t.color TypographyColor.Success
  else if s = "warning" then t.color TypographyColor.Warning
  else if s = "error" then t.color TypographyColor.Error
  else if s = "info" then t.color TypographyColor.Info
  else if s = "auto" then t.color TypographyColor.Auto
  else t

/-- `TextStyles::alignment`. -/
def TextStyles.alignment (t : TextStyles) (a : TypographyAlignment) : TextStyles :=
  { t with pattern := { t.pattern with alignment := some a } }

/-- `TextStyles::alignment_str`: unrecognized strings `return self`
unchanged. -/
def TextStyles.alignment_str (t : TextStyles) (s : String) : TextStyles :=
  if s = "left" then t.alignment TypographyAlignment.Left
  else if s = "center" then t.alignment TypographyAlignment.Center
  else if s = "right" then t.alignment TypographyAlignment.Right
  else if s = "justify" then t.alignment TypographyAlignment.Justify
  else t

/-- `TextStyles::custom_classes`: pushes the raw string when non-empty. -/
def TextStyles.custom_classes (t : TextStyles) (cs : String) : TextStyles :=
  if cs ≠ "" then { t with customClasses := t.customClasses ++ [cs] } else t

/-- `TextStyles::classes`: pattern classes plus custom classes, joined,
whitespace-split, `sort`, `dedup`, re-joined. -/
def TextStyles.classes (t : TextStyles) : String :=
  joinSp (dedupAdj (sortStr (splitWs (joinSp (t.pattern.classes :: t.customClasses)))))

/-! ## Action semantics (`src/patterns/actions.rs`) -/

/-- `ActionIntent`. -/
inductive ActionIntent where
  | Primary | Secondary | Constructive | Destructive | Navigation | Informational
deriving DecidableEq, Repr

/-- `ActionHierarchy`. -/
inductive ActionHierarchy where
  | Hero | Primary | Secondary | Tertiary | Minimal
deriving DecidableEq, Repr

/-- `ActionContext`. -/
inductive ActionContext where
  | Standalone | Form | Navigation | Inline | Toolbar | Floating
deriving DecidableEq, Repr

/-- `ActionSemantics<C>`. -/
structure ActionSemantics where
  intent : ActionIntent
  hierarchy : ActionHierarchy
  context : ActionContext
  isUrgent : Bool
  customClasses : List String
  color_provider : ColorPalette
deriving DecidableEq, Repr

/-- `ActionSemantics::new`. -/
def ActionSemantics.new (p : ColorPalette) : ActionSemantics :=
  ⟨ActionIntent.Secondary, ActionHierarchy.Secondary, ActionContext.Standalone,
   false, [], p⟩

/-- `ActionSemantics::secondary`. -/
def ActionSemantics.secondary (a : ActionSemantics) : ActionSemantics :=
  { a with intent := ActionIntent.Secondary, hierarchy := ActionHierarchy.Secondary }

/-- `ActionSemantics::context`. -/
def ActionSemantics.setContext (a : ActionSemantics) (c : ActionContext) : ActionSemantics :=
  { a with context := c }

/-- `ActionSemantics::get_intent_colors`. -/
def ActionSemantics.get_intent_colors (a : ActionSemantics) : String :=
  match a.intent with
  | ActionIntent.Primary =>
      bgClass a.color_provider Color.Primary ++ " " ++
      textClass a.color_provider Color.TextInverse ++ " " ++
      ("hover:" ++ bgClass a.color_provider Color.InteractiveHover)
  | ActionIntent.Secondary =>
      bgClass a.color_provider Color.Surface ++ " " ++
      textClass a.color_provider Color.TextPrimary ++ " " ++
      borderClass a.color_provider Color.Border ++ " " ++ "border"
  | ActionIntent.Constructive =>
      bgClass a.color_provider Color.Success ++ " " ++
      textClass a.color_provider Color.TextInverse ++ " " ++ "hover:bg-green-600"
  | ActionIntent.Destructive =>
      bgClass a.color_provider Color.Error ++ " " ++
      textClass a.color_provider Color.TextInverse ++ " " ++ "hover:bg-red-600"
  | ActionIntent.Navigation =>
      "bg-transparent" ++ " " ++
      textClass a.color_provider Color.TextPrimary ++ " " ++
      ("hover:" ++ bgClass a.color_provider Color.Background)
  | ActionIntent.Informational =>
      "bg-transparent" ++ " " ++
      textClass a.color_provider Color.TextSecondary ++ " " ++ "hover:underline"

/-- `ActionSemantics::get_hierarchy_weight`. -/
def ActionSemantics.get_hierarchy_weight (a : ActionSemantics) : String :=
  match a.hierarchy with
  | ActionHierarchy.Hero => "text-xl font-bold px-8 py-4 rounded-lg shadow-lg"
  | ActionHierarchy.Primary => "text-base font-semibold px-6 py-3 rounded-md shadow-md"
  | ActionHierarchy.Secondary => "text-sm font-medium px-4 py-2 rounded-md shadow-sm"
  | ActionHierarchy.Tertiary => "text-sm font-normal px-3 py-1.5 rounded"
  | ActionHierarchy.Minimal => "text-xs font-normal px-2 py-1 rounded"

/-- `ActionSemantics::get_context_adjustments`. -/
def ActionSemantics.get_context_adjustments (a : ActionSemantics) : String :=
  match a.context with
  | ActionContext.Standalone => ""
  | ActionContext.Form => "min-w-24"
  | ActionContext.Navigation => "w-full justify-start"
  | ActionContext.Inline => "inline underline-offset-2"
  | ActionContext.Toolbar => "h-8 px-2 text-xs"
  | ActionContext.Floating => "rounded-full w-14 h-14 shadow-xl"

/-- `ActionSemantics::classes`: push intent colors, hierarchy weight,
non-empty context adjustments, an urgency class, then customs; join " ". -/
def ActionSemantics.classes (a : ActionSemantics) : String :=
  joinSp ([a.get_intent_colors, a.get_hierarchy_weight]
    ++ (if a.get_context_adjustments ≠ "" then [a.get_context_adjustments] else [])
    ++ (if a.isUrgent then ["animate-pulse"] else [])
    ++ a.customClasses)

/-! ## Interactive element (`src/patterns/interactions.rs`) -/

/-- `InteractiveState`. -/
inductive InteractiveState where
  | Default | Hover | Active | Focused | Disabled | Loading
deriving DecidableEq, Repr

/-- `InteractionIntensity`. -/
inductive InteractionIntensity where
  | Gentle | Standard | Prominent
deriving DecidableEq, Repr

/-- `InteractiveElement<C>`. -/
structure InteractiveElement where
  state : InteractiveState
  isHoverable : Bool
  isFocusable : Bool
  isPressable : Bool
  interactionIntensity : InteractionIntensity
  customClasses : List String
  color_provider : ColorPalette
deriving DecidableEq, Repr

/-- `InteractiveElement::new`. -/
def InteractiveElement.new (p : ColorPalette) : InteractiveElement :=
  ⟨InteractiveState.Default, false, false, false, InteractionIntensity.Standard, [], p⟩

/-- `InteractiveElement::hoverable`. -/
def InteractiveElement.hoverable (e : InteractiveElement) : InteractiveElement :=
  { e with isHoverable := true }

/-- `InteractiveElement::focusable`. -/
def InteractiveElement.focusable (e : InteractiveElement) : InteractiveElement :=
  { e with isFocusable := true }

/-- `InteractiveElement::pressable`. -/
def InteractiveElement.pressable (e : InteractiveElement) : InteractiveElement :=
  { e with isPressable := true }

/-- `InteractiveElement::standard_interaction`. -/
def InteractiveElement.standard_interaction (e : InteractiveElement) : InteractiveElement :=
  { e with interactionIntensity := InteractionIntensity.Standard }

/-- `InteractiveElement::disabled`. -/
def InteractiveElement.disabled (e : InteractiveElement) : InteractiveElement :=
  { e with state := InteractiveState.Disabled }

/-- `InteractiveElement::loading`. -/
def InteractiveElement.loading (e : InteractiveElement) : InteractiveElement :=
  { e with state := InteractiveState.Loading }

/-- The focus ring color fragment shared by the interactive and focus
builders: `primary.replace("bg-", "").replace("-500", "-300")`. -/
def primaryRingFragment (p : ColorPalette) : String :=
  replaceAll (replaceAll (resolveColor p Color.Primary) "bg-" "") "-500" "-300"

/-- `InteractiveElement::classes`: the conditional pushes of the source, in
order, joined with " ". -/
def InteractiveElement.classes (e : InteractiveElement) : String :=
  joinSp (
    (if e.isHoverable ∨ e.isFocusable ∨ e.isPressable then
       ["transition-all duration-200 ease-in-out"] else [])
    ++ (if e.state = InteractiveState.Disabled then ["cursor-not-allowed"]
        else if e.state = InteractiveState.Loading then ["cursor-wait"]
        else if e.isHoverable ∨ e.isPressable then ["cursor-pointer"]
        else [])
    ++ (if e.isHoverable ∧ e.state ≠ InteractiveState.Disabled then
          [match e.interactionIntensity with
           | InteractionIntensity.Gentle => "hover:scale-101 hover:shadow-sm"
           | InteractionIntensity.Standard => "hover:scale-105 hover:shadow-md"
           | InteractionIntensity.Prominent => "hover:scale-110 hover:shadow-lg"]
        else [])
    ++ (if e.isPressable ∧ e.state ≠ InteractiveState.Disabled then
          [match e.interactionIntensity with
           | InteractionIntensity.Gentle => "active:scale-100"
           | InteractionIntensity.Standard => "active:scale-95"
           | InteractionIntensity.Prominent => "active:scale-95"]
        else [])
    ++ (if e.isFocusable then
          ["focus:outline-none focus:ring-2 focus:ring-offset-2",
           "focus:ring-" ++ primaryRingFragment e.color_provider]
        else [])
    ++ (if e.state = InteractiveState.Focused ∧ e.isFocusable then
          ["ring-2 ring-offset-2", "ring-" ++ primaryRingFragment e.color_provider]
        else if e.state = InteractiveState.Disabled then
          ["opacity-50 pointer-events-none"]
        else if e.state = InteractiveState.Loading then ["opacity-75"]
        else [])
    ++ e.customClasses)

/-! ## Focus management (`src/patterns/focus.rs`) -/

/-- `FocusBehavior`. -/
inductive FocusBehavior where
  | Standard | Subtle | Prominent | None | Custom
deriving DecidableEq, Repr

/-- `KeyboardPattern`. -/
inductive KeyboardPattern where
  | Button | Link | MenuItem | Tab | Toggle | Expandable
deriving DecidableEq, Repr

/-- `ScreenReaderPattern`. -/
inductive ScreenReaderPattern where
  | Button | Link | MenuItem | Tab | ToggleButton | Expandable
deriving DecidableEq, Repr

/-- `FocusManagement<C>`. -/
structure FocusManagement where
  focusBehavior : FocusBehavior
  keyboardPattern : Option KeyboardPattern
  screenReaderPattern : Option ScreenReaderPattern
  isFocusable : Bool
  tabIndex : Option Int
  customClasses : List String
  color_provider : ColorPalette
deriving DecidableEq, Repr

/-- `FocusManagement::new`. -/
def FocusManagement.new (p : ColorPalette) : FocusManagement :=
  ⟨FocusBehavior.Standard, none, none, true, none, [], p⟩

/-- `FocusManagement::button`. -/
def FocusManagement.button (f : FocusManagement) : FocusManagement :=
  { f with keyboardPattern := some KeyboardPattern.Button,
           screenReaderPattern := some ScreenReaderPattern.Button,
           focusBehavior := FocusBehavior.Standard }

/-- `FocusManagement::link`. -/
def FocusManagement.link (f : FocusManagement) : FocusManagement :=
  { f with keyboardPattern := some KeyboardPattern.Link,
           screenReaderPattern := some ScreenReaderPattern.Link,
           focusBehavior := FocusBehavior.Standard }

/-- `FocusManagement::menu_item`. -/
def FocusManagement.menu_item (f : FocusManagement) : FocusManagement :=
  { f with keyboardPattern := some KeyboardPattern.MenuItem,
           screenReaderPattern := some ScreenReaderPattern.MenuItem,
           focusBehavior := FocusBehavior.Subtle }

/-- `FocusManagement::toggle`. -/
def FocusManagement.toggle (f : FocusManagement) : FocusManagement :=
  { f with keyboardPattern := some KeyboardPattern.Toggle,
           screenReaderPattern := some ScreenReaderPattern.ToggleButton,
           focusBehavior := FocusBehavior.Standard }

/-- `FocusManagement::focus_behavior`. -/
def FocusManagement.focus_behavior (f : FocusManagement) (b : FocusBehavior) : FocusManagement :=
  { f with focusBehavior := b }

/-- The focus-ring string selected by `FocusManagement::classes`. -/
def FocusManagement.focusRing (f : FocusManagement) : String :=
  match f.focusBehavior with
  | FocusBehavior.Standard =>
      "focus:ring-2 focus:ring-offset-2 focus:ring-" ++ primaryRingFragment f.color_provider
  | FocusBehavior.Subtle =>
      "focus:ring-1 focus:ring-offset-1 focus:ring-" ++
        replaceAll (resolveColor f.color_provider Color.Border) "border-" ""
  | FocusBehavior.Prominent =>
      "focus:ring-4 focus:ring-offset-2 focus:ring-" ++ primaryRingFragment f.color_provider
  | FocusBehavior.None => "focus:ring-0"
  | FocusBehavior.Custom => ""

/-- `FocusManagement::classes`. -/
def FocusManagement.classes (f : FocusManagement) : String :=
  joinSp (
    (if f.isFocusable then
       ["focus:outline-none"] ++ (if f.focusRing ≠ "" then [f.focusRing] else [])
     else [])
    ++ f.customClasses)

/-- `FocusManagement::data_attributes`. -/
def FocusManagement.data_attributes (f : FocusManagement) : List (String × String) :=
  (match f.tabIndex with
   | some i => [("tabindex", toString i)]
   | none => if f.isFocusable then [("tabindex", "0")] else [])
  ++ (match f.screenReaderPattern with
      | some ScreenReaderPattern.Button => [("role", "button")]
      | some ScreenReaderPattern.Link => [("role", "link")]
      | some ScreenReaderPattern.MenuItem => [("role", "menuitem")]
      | some ScreenReaderPattern.Tab => [("role", "tab")]
      | some ScreenReaderPattern.ToggleButton => [("role", "button")]
      | some ScreenReaderPattern.Expandable => [("role", "button")]
      | none => [])
  ++ (match f.screenReaderPattern with
      | some ScreenReaderPattern.ToggleButton => [("aria-pressed", "false")]
      | some ScreenReaderPattern.Expandable => [("aria-expanded", "false")]
      | _ => [])

/-! ## Button pattern (`src/patterns/button.rs`) -/

/-- `ButtonPattern<C>`. -/
structure ButtonPattern where
  disabled : Bool
  loading : Bool
  selected : Bool
  action_semantics : ActionSemantics
  interactive_element : InteractiveElement
  focus_management : FocusManagement
  customClasses : List String
  color_provider : ColorPalette
deriving DecidableEq, Repr

/-- `ButtonPattern::new`. -/
def ButtonPattern.new (p : ColorPalette) : ButtonPattern :=
  { disabled := false
    loading := false
    selected := false
    action_semantics :=
      ((ActionSemantics.new p).secondary).setContext ActionContext.Standalone
    interactive_element :=
      ((((InteractiveElement.new p).hoverable).focusable).pressable).standard_interaction
    focus_management := (FocusManagement.new p).button
    customClasses := []
    color_provider := p }

/-- `ButtonPattern::toggle_focus`. -/
def ButtonPattern.toggle_focus (b : ButtonPattern) : ButtonPattern :=
  { b with focus_management := b.focus_management.toggle }

/-- `ButtonPattern::disabled`. -/
def ButtonPattern.setDisabled (b : ButtonPattern) (d : Bool) : ButtonPattern :=
  { b with disabled := d,
           interactive_element :=
             if d then b.interactive_element.disabled else b.interactive_element }

/-- `ButtonPattern::loading`. -/
def ButtonPattern.setLoading (b : ButtonPattern) (l : Bool) : ButtonPattern :=
  { b with loading := l,
           interactive_element :=
             if l then b.interactive_element.loading else b.interactive_element }

/-- `ButtonPattern::selected`. -/
def ButtonPattern.setSelected (b : ButtonPattern) (s : Bool) : ButtonPattern :=
  { b with selected := s }

/-- `ButtonPattern::custom`. -/
def ButtonPattern.custom (b : ButtonPattern) (c : String) : ButtonPattern :=
  { b with customClasses := b.customClasses ++ [c] }

/-- The `all_classes` vector accumulated by `ButtonPattern::classes`. -/
def ButtonPattern.allClasses (b : ButtonPattern) : List String :=
  (if b.action_semantics.classes ≠ "" then [b.action_semantics.classes] else [])
  ++ (if b.interactive_element.classes ≠ "" then [b.interactive_element.classes] else [])
  ++ (if b.focus_management.classes ≠ "" then [b.focus_management.classes] else [])
  ++ (if b.selected then ["bg-opacity-80"] else [])
  ++ b.customClasses

/-- `ButtonPattern::classes`: join with " ", whitespace-split, `Vec::dedup`
(adjacent duplicates only — there is no sort), re-join. -/
def ButtonPattern.classes (b : ButtonPattern) : String :=
  joinSp (dedupAdj (splitWs (joinSp b.allClasses)))

/-- `ButtonPattern::accessibility_attributes`. -/
def ButtonPattern.accessibility_attributes (b : ButtonPattern) : List (String × String) :=
  b.focus_management.data_attributes
  ++ (if b.disabled then [("aria-disabled", "true")] else [])
  ++ (if b.loading then [("aria-busy", "true")] else [])
  ++ (if b.selected then [("aria-pressed", "true")] else [])

/-! ## Selection and state builder configurations
(`src/builders/selection.rs`, `src/builders/state.rs`; enums from
`src/patterns/selection.rs` and `src/patterns/states.rs`).  Only the
configuration structs and their `_str` setters are needed here. -/

/-- `SelectionBehavior`. -/
inductive SelectionBehavior where
  | None | Single | Multiple | Toggle
deriving DecidableEq, Repr

/-- `SelectionState`. -/
inductive SelectionState where
  | Unselected | Selected | PartiallySelected | Disabled
deriving DecidableEq, Repr

/-- `SelectionDisplay`. -/
inductive SelectionDisplay where
  | Button | Chip | ListItem | Card | Tab
deriving DecidableEq, Repr

/-- `SelectionLayout`. -/
inductive SelectionLayout where
  | Horizontal | Vertical | Grid | Dropdown | Inline
deriving DecidableEq, Repr

/-- `SelectionSize`. -/
inductive SelectionSize where
  | XS | SM | MD | LG | XL
deriving DecidableEq, Repr

/-- `SelectionInteraction`. -/
inductive SelectionInteraction where
  | Subtle | Standard | Prominent
deriving DecidableEq, Repr

/-- `SelectionStyles<C>` configuration. -/
structure SelectionStyles where
  behavior : SelectionBehavior
  state : SelectionState
  display : SelectionDisplay
  layout : SelectionLayout
  size : SelectionSize
  interaction : SelectionInteraction
  showCounts : Bool
  showClearAll : Bool
  customClasses : List String
  color_provider : ColorPalette
deriving DecidableEq, Repr

/-- `SelectionStyles::new`. -/
def SelectionStyles.new (p : ColorPalette) : SelectionStyles :=
  ⟨SelectionBehavior.Single, SelectionState.Unselected, SelectionDisplay.Button,
   SelectionLayout.Horizontal, SelectionSize.MD, SelectionInteraction.Standard,
   false, false, [], p⟩

/-- `SelectionStyles::behavior_str` with the `_ => Single` fallback. -/
def SelectionStyles.behavior_str (b : SelectionStyles) (s : String) : SelectionStyles :=
  { b with behavior :=
      if s = "none" then SelectionBehavior.None
      else if s = "single" then SelectionBehavior.Single
      else if s = "multiple" then SelectionBehavior.Multiple
      else if s = "toggle" then SelectionBehavior.Toggle
      else SelectionBehavior.Single }

/-- `SelectionStyles::state_str` with the `_ => Unselected` fallback. -/
def SelectionStyles.state_str (b : SelectionStyles) (s : String) : SelectionStyles :=
  { b with state :=
      if s = "unselected" ∨ s = "inactive" then SelectionState.Unselected
      else if s = "selected" ∨ s = "active" then SelectionState.Selected
      else if s = "partial" then SelectionState.PartiallySelected
      else if s = "disabled" then SelectionState.Disabled
      else SelectionState.Unselected }

/-- `SelectionStyles::display_str` with the `_ => Button` fallback. -/
def SelectionStyles.display_str (b : SelectionStyles) (s : String) : SelectionStyles :=
  { b with display :=
      if s = "button" then SelectionDisplay.Button
      else if s = "chip" then SelectionDisplay.Chip
      else if s = "list" ∨ s = "list-item" then SelectionDisplay.ListItem
      else if s = "card" then SelectionDisplay.Card
      else if s = "tab" then SelectionDisplay.Tab
      else SelectionDisplay.Button }

/-- `SelectionStyles::layout_str` with the `_ => Horizontal` fallback. -/
def SelectionStyles.layout_str (b : SelectionStyles) (s : String) : SelectionStyles :=
  { b with layout :=
      if s = "horizontal" then SelectionLayout.Horizontal
      else if s = "vertical" then SelectionLayout.Vertical
      else if s = "grid" then SelectionLayout.Grid
      else if s = "dropdown" then SelectionLayout.Dropdown
      else if s = "inline" then SelectionLayout.Inline
      else SelectionLayout.Horizontal }

/-- `SelectionStyles::size_str` with the `_ => MD` fallback. -/
def SelectionStyles.size_str (b : SelectionStyles) (s : String) : SelectionStyles :=
  { b with size :=
      if s = "xs" then SelectionSize.XS
      else if s = "sm" then SelectionSize.SM
      else if s = "md" then SelectionSize.MD
      else if s = "lg" then SelectionSize.LG
      else if s = "xl" then SelectionSize.XL
      else SelectionSize.MD }

/-- `SelectionStyles::interaction_str` with the `_ => Standard` fallback. -/
def SelectionStyles.interaction_str (b : SelectionStyles) (s : String) : SelectionStyles :=
  { b with interaction :=
      if s = "subtle" then SelectionInteraction.Subtle
      else if s = "standard" then SelectionInteraction.Standard
      else if s = "prominent" then SelectionInteraction.Prominent
      else SelectionInteraction.Standard }

/-- `StateIntent`. -/
inductive StateIntent where
  | Informational | Loading | Success | Warning | Error | Empty
deriving DecidableEq, Repr

/-- `StateProminence`. -/
inductive StateProminence where
  | Subtle | Standard | Prominent
deriving DecidableEq, Repr

/-- `StateSize`. -/
inductive StateSize where
  | XS | SM | MD | LG | XL
deriving DecidableEq, Repr

/-- `StateAlignment`. -/
inductive StateAlignment where
  | Left | Center | Right
deriving DecidableEq, Repr

/-- `StateActionRequirement`. -/
inductive StateActionRequirement where
  | None | Optional | Recommended | Required
deriving DecidableEq, Repr

/-- `LoadingVariant`. -/
inductive LoadingVariant where
  | Spinner | Dots | Pulse | Bars | Skeleton
deriving DecidableEq, Repr

/-- `StateStyles<C>` configuration. -/
structure StateStyles where
  intent : StateIntent
  prominence : StateProminence
  size : StateSize
  alignment : StateAlignment
  actionRequirement : StateActionRequirement
  loadingVariant : Option LoadingVariant
  fullscreen : Bool
  customClasses : List String
  color_provider : ColorPalette
deriving DecidableEq, Repr

/-- `StateStyles::new`. -/
def StateStyles.new (p : ColorPalette) : StateStyles :=
  ⟨StateIntent.Informational, StateProminence.Standard, StateSize.MD,
   StateAlignment.Center, StateActionRequirement.None, none, false, [], p⟩

/-- `StateStyles::intent_str` with the `_ => Informational` fallback. -/
def StateStyles.intent_str (b : StateStyles) (s : String) : StateStyles :=
  { b with intent :=
      if s = "informational" ∨ s = "info" then StateIntent.Informational
      else if s = "loading" then StateIntent.Loading
      else if s = "success" then StateIntent.Success
      else if s = "warning" ∨ s = "warn" then StateIntent.Warning
      else if s = "error" then StateIntent.Error
      else if s = "empty" then StateIntent.Empty
      else StateIntent.Informational }

/-- `StateStyles::prominence_str` with the `_ => Standard` fallback. -/
def StateStyles.prominence_str (b : StateStyles) (s : String) : StateStyles :=
  { b with prominence :=
      if s = "subtle" then StateProminence.Subtle
      else if s = "standard" then StateProminence.Standard
      else if s = "prominent" then StateProminence.Prominent
      else StateProminence.Standard }

/-- `StateStyles::size_str` with the `_ => MD` fallback. -/
def StateStyles.size_str (b : StateStyles) (s : String) : StateStyles :=
  { b with size :=
      if s = "xs" then StateSize.XS
      else if s = "sm" then StateSize.SM
      else if s = "md" then StateSize.MD
      else if s = "lg" then StateSize.LG
      else if s = "xl" then StateSize.XL
      else StateSize.MD }

/-- `StateStyles::alignment_str` with the `_ => Center` fallback. -/
def StateStyles.alignment_str (b : StateStyles) (s : String) : StateStyles :=
  { b with alignment :=
      if s = "left" then StateAlignment.Left
      else if s = "center" then StateAlignment.Center
      else if s = "right" then StateAlignment.Right
      else StateAlignment.Center }

/-- `StateStyles::loading_variant_str` with the `_ => None` fallback. -/
def StateStyles.loading_variant_str (b : StateStyles) (s : String) : StateStyles :=
  { b with loadingVariant :=
      if s = "spinner" then some LoadingVariant.Spinner
      else if s = "dots" then some LoadingVariant.Dots
      else if s = "pulse" then some LoadingVariant.Pulse
      else if s = "bars" then some LoadingVariant.Bars
      else if s = "skeleton" then some LoadingVariant.Skeleton
      else none }

/-! ## Product builder (`src/src/builders/product.rs`, pattern from
`src/src/patterns/product.rs`) -/

/-- `ProductDisplayPattern`. -/
inductive ProductDisplayPattern where
  | ListItem | Featured | Tile | Showcase | Preview
deriving DecidableEq, Repr

/-- `ProductInteractionState`. -/
inductive ProductInteractionState where
  | Default | Focused | Selected | Loading | Disabled
deriving DecidableEq, Repr

/-- `ProductAvailabilityState`. -/
inductive ProductAvailabilityState where
  | Available | OutOfStock | Backorder | Discontinued | Limited
deriving DecidableEq, Repr

/-- `ProductProminence`. -/
inductive ProductProminence where
  | Subtle | Standard | Prominent | Hero
deriving DecidableEq, Repr

/-- `ProductImagePattern`. -/
inductive ProductImagePattern where
  | Standard | Square | Wide | Portrait | Circle
deriving DecidableEq, Repr

/-- `ProductBadgeType`. -/
inductive ProductBadgeType where
  | Sale | New | Featured | BestSeller | Limited | OutOfStock
  | Custom (text : String)
deriving DecidableEq, Repr

/-- `ProductActionType`. -/
inductive ProductActionType where
  | AddToCart | QuickView | Compare | Wishlist | Share | ViewDetails
deriving DecidableEq, Repr

/-- `ProductInfoSection`. -/
inductive ProductInfoSection where
  | Basic | Extended | Detailed | Minimal
deriving DecidableEq, Repr

/-- `ProductPricePattern`. -/
inductive ProductPricePattern where
  | Standard | WithCompare | Range | WithDiscount | OnSale
deriving DecidableEq, Repr

/-- `ProductVariantPattern`. -/
inductive ProductVariantPattern where
  | Dropdown | Buttons | Swatches | List | Radio
deriving DecidableEq, Repr

/-- `ProductCardPattern`. -/
structure ProductCardPattern where
  display : ProductDisplayPattern
  interactionState : ProductInteractionState
  availability : ProductAvailabilityState
  prominence : ProductProminence
  imagePattern : ProductImagePattern
  infoSections : List ProductInfoSection
  pricePattern : ProductPricePattern
  actions : List ProductActionType
  badges : List ProductBadgeType
  variantPattern : Option ProductVariantPattern
deriving DecidableEq, Repr

/-- `ProductCardPattern::new`. -/
def ProductCardPattern.new : ProductCardPattern :=
  ⟨ProductDisplayPattern.ListItem, ProductInteractionState.Default,
   ProductAvailabilityState.Available, ProductProminence.Standard,
   ProductImagePattern.Standard, [ProductInfoSection.Basic],
   ProductPricePattern.Standard, [ProductActionType.AddToCart], [], none⟩

/-- The `classes` vector accumulated by `ProductCardPattern::classes`, in
push order (the states whose match arm is `{}` push nothing). -/
def ProductCardPattern.classVec (p : ProductCardPattern)
    (colors : ColorPalette) : List String :=
  ["product-card"]
  ++ [match p.display with
      | ProductDisplayPattern.ListItem => "product-card--list"
      | ProductDisplayPattern.Featured => "product-card--featured"
      | ProductDisplayPattern.Tile => "product-card--tile"
      | ProductDisplayPattern.Showcase => "product-card--showcase"
      | ProductDisplayPattern.Preview => "product-card--preview"]
  ++ (match p.interactionState with
      | ProductInteractionState.Default => []
      | ProductInteractionState.Focused => ["product-card--focused"]
      | ProductInteractionState.Selected => ["product-card--selected"]
      | ProductInteractionState.Loading => ["product-card--loading"]
      | ProductInteractionState.Disabled => ["product-card--disabled"])
  ++ (match p.availability with
      | ProductAvailabilityState.Available => []
      | ProductAvailabilityState.OutOfStock => ["product-card--out-of-stock"]
      | ProductAvailabilityState.Backorder => ["product-card--backorder"]
      | ProductAvailabilityState.Discontinued => ["product-card--discontinued"]
      | ProductAvailabilityState.Limited => ["product-card--limited"])
  ++ (match p.prominence with
      | ProductProminence.Subtle => ["product-card--subtle"]
      | ProductProminence.Standard => []
      | ProductProminence.Prominent => ["product-card--prominent"]
      | ProductProminence.Hero => ["product-card--hero"])
  ++ (if p.availability ≠ ProductAvailabilityState.Available then
        [textClass colors Color.InteractiveDisabled]
      else
        match p.prominence with
        | ProductProminence.Hero => [bgClass colors Color.Primary]
        | ProductProminence.Prominent => [bgClass colors Color.Secondary]
        | _ => [bgClass colors Color.Surface])

/-- `ProductCardPattern::classes`: the pushed classes joined with `" "`
(no whitespace splitting, no sorting, no deduplication). -/
def ProductCardPattern.classes (p : ProductCardPattern)
    (colors : ColorPalette) : String :=
  joinSp (p.classVec colors)

/-- `ProductBuilder<C>`. -/
structure ProductBuilder where
  pattern : ProductCardPattern
  colors : ColorPalette
  customClasses : List String
deriving DecidableEq, Repr

/-- `ProductBuilder::new`. -/
def ProductBuilder.new (colors : ColorPalette) : ProductBuilder :=
  ⟨ProductCardPattern.new, colors, []⟩

/-- `ProductBuilder::classes`: the pattern classes; when custom classes are
present, a space and the verbatim `join(" ")` of the custom classes are
appended via `push_str` — there is no whitespace normalization. -/
def ProductBuilder.classes (b : ProductBuilder) : String :=
  let classes := b.pattern.classes b.colors
  if b.customClasses ≠ [] then classes ++ " " ++ joinSp b.customClasses
  else classes

/-! ## Derived notions used by the statements -/

/-- A well-formed utility-class token: non-empty and whitespace-free.
Every element produced by `splitWs` satisfies this. -/
def goodToken (t : String) : Prop :=
  t.data ≠ [] ∧ ∀ c ∈ t.data, c.isWhitespace = false

instance (t : String) : Decidable (goodToken t) := by
  unfold goodToken; infer_instance

/-- The token sequence of `ButtonStyles::build` in assembly order (base,
size, variant, state, width, icon, customs), as described by the spec; used
to compare the actual output against the spec's claimed normalization. -/
def buttonAssemblyTokens (b : ButtonStyles) : List String :=
  splitWs b.get_base_classes ++ splitWs b.get_size_classes ++
  splitWs b.get_variant_classes ++ splitWs b.get_state_classes ++
  splitWs (if b.fullWidth then "w-full" else "") ++
  splitWs (if b.withIcon then "space-x-2" else "") ++
  splitWs (joinSp b.customClasses)

/-! ## Lemmas about the token machinery -/

theorem splitWsGo_append_ws (w : Char) (hw : w.isWhitespace = true)
    (ys : List Char) :
    ∀ xs : List Char,
      splitWsGo (xs ++ w :: ys) =
        ((splitWsGo xs).1, (splitWsGo xs).2 ++ splitWsChars ys) := by
  intro xs
  induction xs with
  | nil =>
      simp only [List.nil_append, splitWsGo, splitWsChars, hw, if_true,
        List.nil_append]
  | cons c cs ih =>
      simp only [List.cons_append, splitWsGo, List.append_eq]
      rw [ih]
      cases hc : c.isWhitespace with
      | true =>
          simp only [if_true]
          by_cases h1 : (splitWsGo cs).1 = [] <;> simp [h1]
      | false => simp

theorem splitWsChars_append_ws (w : Char) (hw : w.isWhitespace = true)
    (xs ys : List Char) :
    splitWsChars (xs ++ w :: ys) = splitWsChars xs ++ splitWsChars ys := by
  unfold splitWsChars
  rw [splitWsGo_append_ws w hw ys xs]
  by_cases h1 : (splitWsGo xs).1 = [] <;> simp [h1, splitWsChars]

theorem splitWs_append_space (a b : String) :
    splitWs (a ++ " " ++ b) = splitWs a ++ splitWs b := by
  unfold splitWs
  have hd : (a ++ " " ++ b).data = a.data ++ ' ' :: b.data := by
    simp [String.data_append]
  rw [hd, splitWsChars_append_ws ' ' (by decide), List.map_append]

theorem splitWs_empty : splitWs "" = [] := rfl

theorem splitWs_joinSp_flatten :
    ∀ l : List String, splitWs (joinSp l) = (l.map splitWs).flatten
  | [] => by simp [joinSp, splitWs_empty]
  | [t] => by simp [joinSp]
  | t :: t2 :: ts => by
      rw [joinSp, splitWs_append_space, splitWs_joinSp_flatten (t2 :: ts)]
      simp

theorem splitWsGo_good (l : List Char) :
    (∀ c ∈ (splitWsGo l).1, c.isWhitespace = false) ∧
    (∀ t ∈ (splitWsGo l).2, t ≠ [] ∧ ∀ c ∈ t, c.isWhitespace = false) := by
  induction l with
  | nil => simp [splitWsGo]
  | cons c cs ih =>
      cases hc : c.isWhitespace with
      | true =>
          simp only [splitWsGo, hc, if_true]
          refine ⟨by simp, ?_⟩
          by_cases h1 : (splitWsGo cs).1 = []
          · simpa [h1] using ih.2
          · simp only [h1, if_false]
            intro t ht
            rcases List.mem_cons.mp ht with rfl | ht2
            · exact ⟨h1, ih.1⟩
            · exact ih.2 t ht2
      | false =>
          simp only [splitWsGo, hc, if_false]
          refine ⟨?_, ih.2⟩
          intro d hd
          rcases List.mem_cons.mp hd with rfl | hd2
          · exact hc
          · exact ih.1 d hd2

theorem splitWsChars_good (l : List Char) :
    ∀ t ∈ splitWsChars l, t ≠ [] ∧ ∀ c ∈ t, c.isWhitespace = false := by
  unfold splitWsChars
  by_cases h1 : (splitWsGo l).1 = []
  · simpa [h1] using (splitWsGo_good l).2
  · simp only [h1, if_false]
    intro t ht
    rcases List.mem_cons.mp ht with rfl | ht2
    · exact ⟨h1, (splitWsGo_good l).1⟩
    · exact (splitWsGo_good l).2 t ht2

theorem good_splitWs (s : String) : ∀ t ∈ splitWs s, goodToken t := by
  intro t ht
  unfold splitWs at ht
  rcases List.mem_map.mp ht with ⟨u, hu, rfl⟩
  exact splitWsChars_good s.data u hu

theorem splitWsGo_all_nonws :
    ∀ l : List Char, (∀ c ∈ l, c.isWhitespace = false) → splitWsGo l = (l, [])
  | [], _ => rfl
  | c :: cs, h => by
      have hc : c.isWhitespace = false := h c (by simp)
      have hrec := splitWsGo_all_nonws cs (fun d hd => h d (by simp [hd]))
      simp [splitWsGo, hc, hrec]

theorem splitWsChars_single (t : List Char) (h0 : t ≠ [])
    (h : ∀ c ∈ t, c.isWhitespace = false) : splitWsChars t = [t] := by
  unfold splitWsChars
  rw [splitWsGo_all_nonws t h]
  simp [h0]

theorem splitWs_single (t : String) (h : goodToken t) : splitWs t = [t] := by
  unfold splitWs
  rw [splitWsChars_single t.data h.1 h.2]
  rfl

theorem splitWs_joinSp_good :
    ∀ ts : List String, (∀ t ∈ ts, goodToken t) → splitWs (joinSp ts) = ts
  | [], _ => rfl
  | [t], h => by
      rw [joinSp, splitWs_single t (h t (by simp))]
  | t :: t2 :: ts, h => by
      have hrest : ∀ u ∈ t2 :: ts, goodToken u := by
        intro u hu
        exact h u (List.mem_cons_of_mem t hu)
      rw [joinSp, splitWs_append_space, splitWs_single t (h t (by simp)),
        splitWs_joinSp_good (t2 :: ts) hrest]
      rfl

theorem dedupAdj_sublist : ∀ l : List String, List.Sublist (dedupAdj l) l
  | [] => by simp [dedupAdj]
  | [a] => by simp [dedupAdj]
  | a :: b :: rest => by
      rw [dedupAdj]
      by_cases hab : a = b
      · rw [if_pos hab]
        exact (dedupAdj_sublist (b :: rest)).cons a
      · rw [if_neg hab]
        exact (dedupAdj_sublist (b :: rest)).cons₂ a

theorem mem_dedupAdj {a : String} : ∀ {l : List String}, a ∈ dedupAdj l ↔ a ∈ l
  | [] => by simp [dedupAdj]
  | [x] => by simp [dedupAdj]
  | x :: y :: rest => by
      rw [dedupAdj]
      by_cases hxy : x = y
      · rw [if_pos hxy]
        rw [mem_dedupAdj (l := y :: rest)]
        subst hxy
        simp only [List.mem_cons]
        tauto
      · rw [if_neg hxy]
        simp only [List.mem_cons, mem_dedupAdj (l := y :: rest)]

theorem dedupAdj_pairwise_lt :
    ∀ {l : List String}, l.Pairwise (· ≤ ·) → (dedupAdj l).Pairwise (· < ·)
  | [], _ => by simp [dedupAdj]
  | [a], _ => by simp [dedupAdj]
  | a :: b :: rest, h => by
      rw [dedupAdj]
      have hab : a ≤ b := (List.pairwise_cons.mp h).1 b (by simp)
      have htail : (b :: rest).Pairwise (· ≤ ·) := (List.pairwise_cons.mp h).2
      by_cases he : a = b
      · rw [if_pos he]
        exact dedupAdj_pairwise_lt htail
      · rw [if_neg he]
        refine List.pairwise_cons.mpr ⟨?_, dedupAdj_pairwise_lt htail⟩
        intro y hy
        have hyl : y ∈ b :: rest := mem_dedupAdj.mp hy
        rcases List.mem_cons.mp hyl with rfl | hyr
        · exact lt_of_le_of_ne hab he
        · have hby : b ≤ y := (List.pairwise_cons.mp htail).1 y hyr
          exact lt_of_lt_of_le (lt_of_le_of_ne hab he) hby

theorem mem_insertSorted {a x : String} :
    ∀ {l : List String}, a ∈ insertSorted x l ↔ a = x ∨ a ∈ l
  | [] => by simp [insertSorted]
  | b :: bs => by
      rw [insertSorted]
      by_cases h : x ≤ b
      · simp [h, List.mem_cons]
      · simp only [h, if_false, List.mem_cons, mem_insertSorted (l := bs)]
        tauto

theorem insertSorted_pairwise {x : String} :
    ∀ {l : List String}, l.Pairwise (· ≤ ·) →
      (insertSorted x l).Pairwise (· ≤ ·)
  | [], _ => by simp [insertSorted]
  | b :: bs, h => by
      rw [insertSorted]
      by_cases hxb : x ≤ b
      · rw [if_pos hxb]
        refine List.pairwise_cons.mpr ⟨?_, h⟩
        intro y hy
        rcases List.mem_cons.mp hy with rfl | hyr
        · exact hxb
        · exact le_trans hxb ((List.pairwise_cons.mp h).1 y hyr)
      · rw [if_neg hxb]
        have hbx : b ≤ x := le_of_not_le hxb
        refine List.pairwise_cons.mpr
          ⟨?_, insertSorted_pairwise (List.pairwise_cons.mp h).2⟩
        intro y hy
        rcases mem_insertSorted.mp hy with rfl | hyr
        · exact hbx
        · exact (List.pairwise_cons.mp h).1 y hyr

theorem sortStr_pairwise_le : ∀ l : List String, (sortStr l).Pairwise (· ≤ ·)
  | [] => by simp [sortStr]
  | a :: as => by
      rw [sortStr]
      exact insertSorted_pairwise (sortStr_pairwise_le as)

theorem mem_sortStr {a : String} :
    ∀ {l : List String}, a ∈ sortStr l ↔ a ∈ l
  | [] => by simp [sortStr]
  | x :: xs => by
      rw [sortStr, mem_insertSorted, mem_sortStr (l := xs)]
      simp [List.mem_cons]

/-! ## Structural lemmas about the builders -/

theorem button_build_tokens (b : ButtonStyles) :
    splitWs b.build = splitWs b.assembled := by
  unfold ButtonStyles.build
  exact splitWs_joinSp_good _ (good_splitWs _)

theorem button_assembled_tokens (b : ButtonStyles) :
    splitWs b.assembled = buttonAssemblyTokens b := by
  unfold ButtonStyles.assembled buttonAssemblyTokens
  simp only [splitWs_append_space, List.append_assoc]

theorem button_classes_tokens (b : ButtonStyles) :
    splitWs b.classes = buttonAssemblyTokens b := by
  unfold ButtonStyles.classes
  rw [button_build_tokens, button_assembled_tokens]

theorem card_build_tokens (b : CardStyles) :
    splitWs b.build = dedupAdj (sortStr (splitWs (joinSp b.allClasses))) := by
  unfold CardStyles.build
  apply splitWs_joinSp_good
  intro t ht
  have h1 : t ∈ sortStr (splitWs (joinSp b.allClasses)) := mem_dedupAdj.mp ht
  exact good_splitWs _ t (mem_sortStr.mp h1)

theorem text_classes_tokens (t : TextStyles) :
    splitWs t.classes =
      dedupAdj (sortStr (splitWs (joinSp (t.pattern.classes :: t.customClasses)))) := by
  unfold TextStyles.classes
  apply splitWs_joinSp_good
  intro u hu
  have h1 : u ∈ sortStr (splitWs (joinSp (t.pattern.classes :: t.customClasses))) :=
    mem_dedupAdj.mp hu
  exact good_splitWs _ u (mem_sortStr.mp h1)

theorem sortDedup_sorted (l : List String) :
    (dedupAdj (sortStr l)).Pairwise (· ≤ ·) :=
  (dedupAdj_pairwise_lt (sortStr_pairwise_le l)).imp le_of_lt

theorem sortDedup_nodup (l : List String) :
    (dedupAdj (sortStr l)).Nodup :=
  (dedupAdj_pairwise_lt (sortStr_pairwise_le l)).imp ne_of_lt

theorem mem_sortDedup {a : String} {l : List String} :
    a ∈ dedupAdj (sortStr l) ↔ a ∈ l :=
  mem_dedupAdj.trans mem_sortStr

/-! ## Claim theorems -/

/-- C7: for every `Color` variant and every `ColorPalette`,
`ColorProvider::resolve_color` returns exactly the palette field
corresponding to that variant (total over all 19 variants, no error case),
and `text_class`, `bg_class`, `border_class` are exactly the `"text-"`,
`"bg-"`, `"border-"` prefixes concatenated with `resolve_color`'s result. -/
theorem C7_resolve_color_table (p : ColorPalette) :
    (resolveColor p Color.Primary = p.primary ∧
     resolveColor p Color.Secondary = p.secondary ∧
     resolveColor p Color.Accent = p.accent ∧
     resolveColor p Color.Success = p.success ∧
     resolveColor p Color.Warning = p.warning ∧
     resolveColor p Color.Error = p.error ∧
     resolveColor p Color.Info = p.info ∧
     resolveColor p Color.Surface = p.surface ∧
     resolveColor p Color.Background = p.background ∧
     resolveColor p Color.Foreground = p.foreground ∧
     resolveColor p Color.Border = p.border ∧
     resolveColor p Color.TextPrimary = p.text_primary ∧
     resolveColor p Color.TextSecondary = p.text_secondary ∧
     resolveColor p Color.TextTertiary = p.text_tertiary ∧
     resolveColor p Color.TextInverse = p.text_inverse ∧
     resolveColor p Color.Interactive = p.interactive ∧
     resolveColor p Color.InteractiveHover = p.interactive_hover ∧
     resolveColor p Color.InteractiveActive = p.interactive_active ∧
     resolveColor p Color.InteractiveDisabled = p.interactive_disabled) ∧
    (∀ c : Color,
      textClass p c = "text-" ++ resolveColor p c ∧
      bgClass p c = "bg-" ++ resolveColor p c ∧
      borderClass p c = "border-" ++ resolveColor p c) := by
  refine ⟨⟨rfl, rfl, rfl, rfl, rfl, rfl, rfl, rfl, rfl, rfl, rfl, rfl, rfl,
    rfl, rfl, rfl, rfl, rfl, rfl⟩, ?_⟩
  intro c
  exact ⟨rfl, rfl, rfl⟩

/-- C3 counterexample: `ButtonStyles::build` does NOT deduplicate — a
custom class equal to a base token appears twice in the output — and
`TextStyles::classes` DOES sort alphabetically (the default text builder's
tokens come out in sorted order, not assembly order `leading-relaxed
text-base font-normal text-gray-900`). -/
theorem C3_counterexample :
    List.count "inline-flex"
        (splitWs ((ButtonStyles.new themesVibePalette).custom "inline-flex").classes) = 2 ∧
    splitWs (TextStyles.new themesVibePalette).classes =
      ["font-normal", "leading-relaxed", "text-base", "text-gray-900"] := by
  constructor
  · decide
  · decide

/-- C3 (amended): `ButtonStyles::build` only whitespace-normalizes — its
token list is exactly the assembly-order concatenation of base, size,
variant, state, width, icon, and custom tokens, with no deduplication and
no sorting — while `TextStyles::classes` sorts its tokens alphabetically
and deduplicates. -/
theorem C3_button_text_normalization :
    (∀ b : ButtonStyles, splitWs b.build = buttonAssemblyTokens b) ∧
    (∀ t : TextStyles,
      (splitWs t.classes).Pairwise (· ≤ ·) ∧ (splitWs t.classes).Nodup) := by
  constructor
  · intro b
    rw [button_build_tokens, button_assembled_tokens]
  · intro t
    rw [text_classes_tokens]
    exact ⟨sortDedup_sorted _, sortDedup_nodup _⟩

/-- C1: with the primary-blue theme (`themes::VibeColors`, primary
`"jupiter-blue-500"`, success `"green-500"`),
`ButtonStyles::new(provider).success().large().full_width().with_icon().classes()`
contains the tokens `"bg-green-500"`, `"px-6"`, `"py-3"`, `"w-full"`, and
`"space-x-2"`; and every `ButtonStyles` configuration's output contains the
base tokens `"inline-flex"`, `"items-center"`, `"justify-center"`. -/
theorem C1_button_success_scenario :
    ("bg-green-500" ∈ splitWs
        (((((ButtonStyles.new themesVibePalette).success).large).full_width).with_icon).classes ∧
     "px-6" ∈ splitWs
        (((((ButtonStyles.new themesVibePalette).success).large).full_width).with_icon).classes ∧
     "py-3" ∈ splitWs
        (((((ButtonStyles.new themesVibePalette).success).large).full_width).with_icon).classes ∧
     "w-full" ∈ splitWs
        (((((ButtonStyles.new themesVibePalette).success).large).full_width).with_icon).classes ∧
     "space-x-2" ∈ splitWs
        (((((ButtonStyles.new themesVibePalette).success).large).full_width).with_icon).classes) ∧
    (∀ b : ButtonStyles,
      "inline-flex" ∈ splitWs b.classes ∧
      "items-center" ∈ splitWs b.classes ∧
      "justify-center" ∈ splitWs b.classes) := by
  constructor
  · exact ⟨by decide, by decide, by decide, by decide, by decide⟩
  · intro b
    rw [button_classes_tokens]
    have hb : splitWs b.get_base_classes =
        ["inline-flex", "items-center", "justify-center", "font-medium",
         "transition-colors", "duration-200", "disabled:opacity-50",
         "disabled:cursor-not-allowed"] := rfl
    unfold buttonAssemblyTokens
    rw [hb]
    refine ⟨?_, ?_, ?_⟩ <;> simp

/-- C4: for every `CardStyles` configuration, `build` returns an
alphabetically sorted, duplicate-free token string; in particular adding
the custom class `"rounded-lg"` (already emitted by the base classes)
yields exactly one occurrence of that token. -/
theorem C4_card_sorted_dedup (b : CardStyles) :
    (splitWs b.build).Pairwise (· ≤ ·) ∧ (splitWs b.build).Nodup ∧
    List.count "rounded-lg" (splitWs (b.custom "rounded-lg").build) = 1 := by
  refine ⟨?_, ?_, ?_⟩
  · rw [card_build_tokens]
    exact sortDedup_sorted _
  · rw [card_build_tokens]
    exact sortDedup_nodup _
  · rw [card_build_tokens]
    refine List.count_eq_one_of_mem (sortDedup_nodup _) ?_
    rw [mem_sortDedup, splitWs_joinSp_flatten]
    apply List.mem_flatten.mpr
    refine ⟨splitWs "rounded-lg border transition-all duration-300", ?_, by decide⟩
    apply List.mem_map.mpr
    exact ⟨"rounded-lg border transition-all duration-300",
      by simp [CardStyles.allClasses], rfl⟩

/-- C2 counterexample: `TextStyles::size_str` does not resolve unknown
strings to a fixed default — it leaves the builder unchanged.  Two builders
that differ only in their prior configuration map the same unrecognized
input to different results (the first keeps its previously set `XL` size),
so the result is not the documented default (`Medium`, per the spec) and
does depend on prior configuration. -/
theorem C2_counterexample :
    (((TextStyles.new themesVibePalette).size TypographySize.XL).size_str "totally-unknown") ≠
      (((TextStyles.new themesVibePalette).size TypographySize.MD).size_str "totally-unknown") ∧
    ((((TextStyles.new themesVibePalette).size TypographySize.XL).size_str
        "totally-unknown")).pattern.size = some TypographySize.XL :=
  ⟨by decide, by decide⟩

/-- C2 (amended): for the button, card, selection, and state builders every
`_str` setter maps an unrecognized input string to its fixed documented
default regardless of prior configuration, and `TextStyles::hierarchy_str`
falls back to `Body`; but `TextStyles`' `size_str`, `weight_str`,
`color_str`, and `alignment_str` leave the builder unchanged on
unrecognized input instead of resolving to a default. -/
theorem C2_str_fallbacks :
    (∀ (b : ButtonStyles) (s : String),
      s ∉ (["primary", "secondary", "outline", "success", "warning", "error",
            "danger", "ghost", "link", "water"] : List String) →
      b.variant_str s = b.setVariant ButtonVariant.Primary) ∧
    (∀ (b : ButtonStyles) (s : String),
      s ∉ (["xs", "extra_small", "sm", "small", "md", "medium", "lg", "large",
            "xl", "extra_large"] : List String) →
      b.size_str s = b.setSize Size.Medium) ∧
    (∀ (b : ButtonStyles) (s : String),
      s ∉ (["default", "hover", "active", "disabled", "loading"] : List String) →
      b.state_str s = b.setState ButtonState.Default) ∧
    (∀ (b : CardStyles) (s : String),
      s ∉ (["flat", "none", "subtle", "low", "raised", "standard", "floating",
            "high", "modal", "highest"] : List String) →
      b.elevation_str s = { b with elevation := CardElevation.Subtle }) ∧
    (∀ (b : CardStyles) (s : String),
      s ∉ (["standard", "white", "elevated", "branded", "theme", "glass",
            "dark", "transparent", "clear"] : List String) →
      b.surface_str s = { b with surface := CardSurface.Standard }) ∧
    (∀ (b : CardStyles) (s : String),
      s ∉ (["none", "compact", "sm", "standard", "md", "comfortable", "lg",
            "spacious", "xl"] : List String) →
      b.spacing_str s = { b with spacing := CardSpacing.Standard }) ∧
    (∀ (b : CardStyles) (s : String),
      s ∉ (["static", "none", "hoverable", "hover", "clickable", "click",
            "selectable", "select", "draggable", "drag"] : List String) →
      b.interaction_str s = { b with interaction := CardInteraction.Static }) ∧
    (∀ (t : TextStyles) (s : String),
      s ∉ (["title", "heading", "subheading", "h4", "body", "body-large",
            "body-small", "caption", "overline", "code"] : List String) →
      t.hierarchy_str s = t.hierarchy TypographyHierarchy.Body) ∧
    (∀ (t : TextStyles) (s : String),
      s ∉ (["xs", "sm", "md", "lg", "xl", "2xl", "3xl", "4xl"] : List String) →
      t.size_str s = t) ∧
    (∀ (t : TextStyles) (s : String),
      s ∉ (["light", "normal", "medium", "semibold", "bold", "extrabold"] : List String) →
      t.weight_str s = t) ∧
    (∀ (t : TextStyles) (s : String),
      s ∉ (["primary", "secondary", "accent", "muted", "disabled", "white",
            "black", "success", "warning", "error", "info", "auto"] : List String) →
      t.color_str s = t) ∧
    (∀ (t : TextStyles) (s : String),
      s ∉ (["left", "center", "right", "justify"] : List String) →
      t.alignment_str s = t) ∧
    (∀ (b : SelectionStyles) (s : String),
      s ∉ (["none", "single", "multiple", "toggle"] : List String) →
      b.behavior_str s = { b with behavior := SelectionBehavior.Single }) ∧
    (∀ (b : SelectionStyles) (s : String),
      s ∉ (["unselected", "inactive", "selected", "active", "partial",
            "disabled"] : List String) →
      b.state_str s = { b with state := SelectionState.Unselected }) ∧
    (∀ (b : SelectionStyles) (s : String),
      s ∉ (["button", "chip", "list", "list-item", "card", "tab"] : List String) →
      b.display_str s = { b with display := SelectionDisplay.Button }) ∧
    (∀ (b : SelectionStyles) (s : String),
      s ∉ (["horizontal", "vertical", "grid", "dropdown", "inline"] : List String) →
      b.layout_str s = { b with layout := SelectionLayout.Horizontal }) ∧
    (∀ (b : SelectionStyles) (s : String),
      s ∉ (["xs", "sm", "md", "lg", "xl"] : List String) →
      b.size_str s = { b with size := SelectionSize.MD }) ∧
    (∀ (b : SelectionStyles) (s : String),
      s ∉ (["subtle", "standard", "prominent"] : List String) →
      b.interaction_str s = { b with interaction := SelectionInteraction.Standard }) ∧
    (∀ (b : StateStyles) (s : String),
      s ∉ (["informational", "info", "loading", "success", "warning", "warn",
            "error", "empty"] : List String) →
      b.intent_str s = { b with intent := StateIntent.Informational }) ∧
    (∀ (b : StateStyles) (s : String),
      s ∉ (["subtle", "standard", "prominent"] : List String) →
      b.prominence_str s = { b with prominence := StateProminence.Standard }) ∧
    (∀ (b : StateStyles) (s : String),
      s ∉ (["xs", "sm", "md", "lg", "xl"] : List String) →
      b.size_str s = { b with size := StateSize.MD }) ∧
    (∀ (b : StateStyles) (s : String),
      s ∉ (["left", "center", "right"] : List String) →
      b.alignment_str s = { b with alignment := StateAlignment.Center }) ∧
    (∀ (b : StateStyles) (s : String),
      s ∉ (["spinner", "dots", "pulse", "bars", "skeleton"] : List String) →
      b.loading_variant_str s = { b with loadingVariant := none }) := by
  refine ⟨?_, ?_, ?_, ?_, ?_, ?_, ?_, ?_, ?_, ?_, ?_, ?_, ?_, ?_, ?_, ?_,
    ?_, ?_, ?_, ?_, ?_, ?_, ?_⟩ <;>
    · intro b s h
      simp only [List.mem_cons, List.not_mem_nil, or_false, not_or] at h
      simp [ButtonStyles.variant_str, ButtonStyles.setVariant,
        ButtonStyles.size_str, ButtonStyles.setSize, ButtonStyles.state_str,
        ButtonStyles.setState, CardStyles.elevation_str, CardStyles.surface_str,
        CardStyles.spacing_str, CardStyles.interaction_str,
        TextStyles.hierarchy_str, TextStyles.hierarchy, TextStyles.size_str,
        TextStyles.weight_str, TextStyles.color_str, TextStyles.alignment_str,
        SelectionStyles.behavior_str, SelectionStyles.state_str,
        SelectionStyles.display_str, SelectionStyles.layout_str,
        SelectionStyles.size_str, SelectionStyles.interaction_str,
        StateStyles.intent_str, StateStyles.prominence_str, StateStyles.size_str,
        StateStyles.alignment_str, StateStyles.loading_variant_str, h]

/-- Witness for the amended C2: every `_str` setter applied to the
unrecognized input `"zzz"` on a freshly constructed builder. -/
theorem C2_str_fallbacks_witness :
    (ButtonStyles.new themesVibePalette).variant_str "zzz" =
      (ButtonStyles.new themesVibePalette).setVariant ButtonVariant.Primary ∧
    (ButtonStyles.new themesVibePalette).size_str "zzz" =
      (ButtonStyles.new themesVibePalette).setSize Size.Medium ∧
    (ButtonStyles.new themesVibePalette).state_str "zzz" =
      (ButtonStyles.new themesVibePalette).setState ButtonState.Default ∧
    (CardStyles.new themesVibePalette).elevation_str "zzz" =
      { CardStyles.new themesVibePalette with elevation := CardElevation.Subtle } ∧
    (CardStyles.new themesVibePalette).surface_str "zzz" =
      { CardStyles.new themesVibePalette with surface := CardSurface.Standard } ∧
    (CardStyles.new themesVibePalette).spacing_str "zzz" =
      { CardStyles.new themesVibePalette with spacing := CardSpacing.Standard } ∧
    (CardStyles.new themesVibePalette).interaction_str "zzz" =
      { CardStyles.new themesVibePalette with interaction := CardInteraction.Static } ∧
    (TextStyles.new themesVibePalette).hierarchy_str "zzz" =
      (TextStyles.new themesVibePalette).hierarchy TypographyHierarchy.Body ∧
    (TextStyles.new themesVibePalette).size_str "zzz" = TextStyles.new themesVibePalette ∧
    (TextStyles.new themesVibePalette).weight_str "zzz" = TextStyles.new themesVibePalette ∧
    (TextStyles.new themesVibePalette).color_str "zzz" = TextStyles.new themesVibePalette ∧
    (TextStyles.new themesVibePalette).alignment_str "zzz" = TextStyles.new themesVibePalette ∧
    (SelectionStyles.new themesVibePalette).behavior_str "zzz" =
      { SelectionStyles.new themesVibePalette with behavior := SelectionBehavior.Single } ∧
    (SelectionStyles.new themesVibePalette).state_str "zzz" =
      { SelectionStyles.new themesVibePalette with state := SelectionState.Unselected } ∧
    (SelectionStyles.new themesVibePalette).display_str "zzz" =
      { SelectionStyles.new themesVibePalette with display := SelectionDisplay.Button } ∧
    (SelectionStyles.new themesVibePalette).layout_str "zzz" =
      { SelectionStyles.new themesVibePalette with layout := SelectionLayout.Horizontal } ∧
    (SelectionStyles.new themesVibePalette).size_str "zzz" =
      { SelectionStyles.new themesVibePalette with size := SelectionSize.MD } ∧
    (SelectionStyles.new themesVibePalette).interaction_str "zzz" =
      { SelectionStyles.new themesVibePalette with interaction := SelectionInteraction.Standard } ∧
    (StateStyles.new themesVibePalette).intent_str "zzz" =
      { StateStyles.new themesVibePalette with intent := StateIntent.Informational } ∧
    (StateStyles.new themesVibePalette).prominence_str "zzz" =
      { StateStyles.new themesVibePalette with prominence := StateProminence.Standard } ∧
    (StateStyles.new themesVibePalette).size_str "zzz" =
      { StateStyles.new themesVibePalette with size := StateSize.MD } ∧
    (StateStyles.new themesVibePalette).alignment_str "zzz" =
      { StateStyles.new themesVibePalette with alignment := StateAlignment.Center } ∧
    (StateStyles.new themesVibePalette).loading_variant_str "zzz" =
      { StateStyles.new themesVibePalette with loadingVariant := none } := by
  obtain ⟨h1, h2, h3, h4, h5, h6, h7, h8, h9, h10, h11, h12, h13, h14, h15,
    h16, h17, h18, h19, h20, h21, h22, h23⟩ := C2_str_fallbacks
  exact ⟨h1 _ "zzz" (by decide), h2 _ "zzz" (by decide), h3 _ "zzz" (by decide),
    h4 _ "zzz" (by decide), h5 _ "zzz" (by decide), h6 _ "zzz" (by decide),
    h7 _ "zzz" (by decide), h8 _ "zzz" (by decide), h9 _ "zzz" (by decide),
    h10 _ "zzz" (by decide), h11 _ "zzz" (by decide), h12 _ "zzz" (by decide),
    h13 _ "zzz" (by decide), h14 _ "zzz" (by decide), h15 _ "zzz" (by decide),
    h16 _ "zzz" (by decide), h17 _ "zzz" (by decide), h18 _ "zzz" (by decide),
    h19 _ "zzz" (by decide), h20 _ "zzz" (by decide), h21 _ "zzz" (by decide),
    h22 _ "zzz" (by decide), h23 _ "zzz" (by decide)⟩

theorem mem_ite_nil {c : Prop} [Decidable c] {l : List String} {x : String}
    (h : x ∈ (if c then l else [])) : x ∈ l := by
  by_cases hc : c
  · rwa [if_pos hc] at h
  · rw [if_neg hc] at h
    exact absurd h (List.not_mem_nil x)

/-- If a token is absent from every component pushed by `CardStyles::build`
on an unselected card, it is absent from the output. -/
theorem card_token_not_mem (b : CardStyles) (tok : String)
    (hb : tok ∉ splitWs "rounded-lg border transition-all duration-300")
    (he : tok ∉ splitWs (cardElevationClasses b.elevation))
    (hs : tok ∉ splitWs b.get_surface_classes)
    (hsp : tok ∉ splitWs (cardSpacingClasses b.spacing))
    (hi : tok ∉ splitWs b.get_interaction_classes)
    (hsel : b.selected = false)
    (hh : ∀ s ∈ cardHoverClasses b.interaction b.elevation, tok ∉ splitWs s)
    (hc : tok ∉ splitWs (joinSp b.customClasses)) :
    tok ∉ splitWs b.build := by
  rw [card_build_tokens, mem_sortDedup, splitWs_joinSp_flatten]
  intro hmem
  rcases List.mem_flatten.mp hmem with ⟨piece, hpiece, htok⟩
  rcases List.mem_map.mp hpiece with ⟨src, hsrc, rfl⟩
  unfold CardStyles.allClasses at hsrc
  rw [hsel] at hsrc
  simp only [List.mem_append] at hsrc
  rcases hsrc with (((((((h | h) | h) | h) | h) | h) | h) | h)
  · rw [List.mem_singleton.mp h] at htok
    exact hb htok
  · rw [List.mem_singleton.mp h] at htok
    exact he htok
  · rw [List.mem_singleton.mp (mem_ite_nil h)] at htok
    exact hs htok
  · rw [List.mem_singleton.mp h] at htok
    exact hsp htok
  · rw [List.mem_singleton.mp (mem_ite_nil h)] at htok
    exact hi htok
  · simp at h
  · exact hh src h htok
  · rw [List.mem_singleton.mp (mem_ite_nil h)] at htok
    exact hc htok

/-- C6: for every card configuration over the primary-blue theme palette
(`themes::VibeColors`), a selected card's output contains `"ring-2"` and
`"ring-jupiter-blue-300"` (the primary slot `"jupiter-blue-500"` with
`"-500"` replaced by `"-300"`), and an unselected card's output contains
neither token, provided the custom classes do not themselves contain it. -/
theorem C6_card_selection_ring (e : CardElevation) (su : CardSurface)
    (sp : CardSpacing) (i : CardInteraction) (cs : List String)
    (h2 : "ring-2" ∉ splitWs (joinSp cs))
    (h3 : "ring-jupiter-blue-300" ∉ splitWs (joinSp cs)) :
    "ring-2" ∈
      splitWs (CardStyles.build ⟨e, su, sp, i, true, cs, themesVibePalette⟩) ∧
    "ring-jupiter-blue-300" ∈
      splitWs (CardStyles.build ⟨e, su, sp, i, true, cs, themesVibePalette⟩) ∧
    "ring-2" ∉
      splitWs (CardStyles.build ⟨e, su, sp, i, false, cs, themesVibePalette⟩) ∧
    "ring-jupiter-blue-300" ∉
      splitWs (CardStyles.build ⟨e, su, sp, i, false, cs, themesVibePalette⟩) := by
  refine ⟨?_, ?_, ?_, ?_⟩
  · rw [card_build_tokens, mem_sortDedup, splitWs_joinSp_flatten]
    apply List.mem_flatten.mpr
    refine ⟨splitWs "ring-2 ring-offset-2", ?_, by decide⟩
    apply List.mem_map.mpr
    refine ⟨"ring-2 ring-offset-2", ?_, rfl⟩
    simp [CardStyles.allClasses]
  · rw [card_build_tokens, mem_sortDedup, splitWs_joinSp_flatten]
    apply List.mem_flatten.mpr
    refine ⟨splitWs "ring-jupiter-blue-300", ?_, by decide⟩
    apply List.mem_map.mpr
    refine ⟨"ring-jupiter-blue-300", ?_, rfl⟩
    rw [show ("ring-jupiter-blue-300" : String) =
      (⟨e, su, sp, i, true, cs, themesVibePalette⟩ : CardStyles).selectionRing from rfl]
    simp [CardStyles.allClasses]
  · refine card_token_not_mem _ _ (by decide) ?_ ?_ ?_ ?_ rfl ?_ h2
    · show "ring-2" ∉ splitWs (cardElevationClasses e)
      cases e <;> decide
    · show "ring-2" ∉ splitWs (cardSurfaceClasses themesVibePalette su)
      cases su <;> decide
    · show "ring-2" ∉ splitWs (cardSpacingClasses sp)
      cases sp <;> decide
    · show "ring-2" ∉ splitWs (cardInteractionClasses i)
      cases i <;> decide
    · show ∀ s ∈ cardHoverClasses i e, "ring-2" ∉ splitWs s
      cases i <;> cases e <;> decide
  · refine card_token_not_mem _ _ (by decide) ?_ ?_ ?_ ?_ rfl ?_ h3
    · show "ring-jupiter-blue-300" ∉ splitWs (cardElevationClasses e)
      cases e <;> decide
    · show "ring-jupiter-blue-300" ∉ splitWs (cardSurfaceClasses themesVibePalette su)
      cases su <;> decide
    · show "ring-jupiter-blue-300" ∉ splitWs (cardSpacingClasses sp)
      cases sp <;> decide
    · show "ring-jupiter-blue-300" ∉ splitWs (cardInteractionClasses i)
      cases i <;> decide
    · show ∀ s ∈ cardHoverClasses i e, "ring-jupiter-blue-300" ∉ splitWs s
      cases i <;> cases e <;> decide

/-- Witness for C6 at a concrete configuration with no custom classes. -/
theorem C6_card_selection_ring_witness :
    "ring-2" ∈
      splitWs (CardStyles.build ⟨CardElevation.Subtle, CardSurface.Standard,
        CardSpacing.Standard, CardInteraction.Static, true, [], themesVibePalette⟩) ∧
    "ring-jupiter-blue-300" ∈
      splitWs (CardStyles.build ⟨CardElevation.Subtle, CardSurface.Standard,
        CardSpacing.Standard, CardInteraction.Static, true, [], themesVibePalette⟩) ∧
    "ring-2" ∉
      splitWs (CardStyles.build ⟨CardElevation.Subtle, CardSurface.Standard,
        CardSpacing.Standard, CardInteraction.Static, false, [], themesVibePalette⟩) ∧
    "ring-jupiter-blue-300" ∉
      splitWs (CardStyles.build ⟨CardElevation.Subtle, CardSurface.Standard,
        CardSpacing.Standard, CardInteraction.Static, false, [], themesVibePalette⟩) :=
  C6_card_selection_ring CardElevation.Subtle CardSurface.Standard
    CardSpacing.Standard CardInteraction.Static [] (by decide) (by decide)

/-- C8 (code evaluated at the failing input): the default
`ButtonPattern::new(themes::VibeColors)` emits `"focus:outline-none"` once
from `InteractiveElement::classes` and once from
`FocusManagement::classes`; `ButtonPattern::classes` calls `Vec::dedup`
without sorting first, which removes only adjacent duplicates, so the
output keeps both occurrences — contradicting the claim (and the code's
own "Remove duplicates and join" comment). -/
theorem C8_failing_input :
    List.count "focus:outline-none"
        (splitWs (ButtonPattern.new themesVibePalette).classes) = 2 ∧
    ¬ (splitWs (ButtonPattern.new themesVibePalette).classes).Nodup :=
  ⟨by decide, by decide⟩

theorem data_attributes_no_disabled (fm : FocusManagement) :
    ∀ v : String, ("aria-disabled", v) ∉ fm.data_attributes := by
  intro v h
  unfold FocusManagement.data_attributes at h
  rcases hti : fm.tabIndex with _ | i <;> rw [hti] at h <;>
    rcases hsrp : fm.screenReaderPattern with _ | pat <;> rw [hsrp] at h <;>
    (try cases pat) <;>
    by_cases hf : fm.isFocusable <;> simp [hf] at h

theorem data_attributes_no_busy (fm : FocusManagement) :
    ∀ v : String, ("aria-busy", v) ∉ fm.data_attributes := by
  intro v h
  unfold FocusManagement.data_attributes at h
  rcases hti : fm.tabIndex with _ | i <;> rw [hti] at h <;>
    rcases hsrp : fm.screenReaderPattern with _ | pat <;> rw [hsrp] at h <;>
    (try cases pat) <;>
    by_cases hf : fm.isFocusable <;> simp [hf] at h

theorem data_attributes_pressed (fm : FocusManagement) (v : String) :
    ("aria-pressed", v) ∈ fm.data_attributes ↔
      v = "false" ∧
        fm.screenReaderPattern = some ScreenReaderPattern.ToggleButton := by
  unfold FocusManagement.data_attributes
  rcases hti : fm.tabIndex with _ | i <;>
    rcases hsrp : fm.screenReaderPattern with _ | pat <;>
    (try cases pat) <;>
    by_cases hf : fm.isFocusable <;> simp [hf]

/-- C10 counterexample: a `ButtonPattern` with toggle focus behavior emits
`("aria-pressed", "false")` from `FocusManagement::data_attributes` even
though its `selected` flag is false — so a value other than `"true"` is
emitted for `aria-pressed`, contrary to the claim. -/
theorem C10_counterexample :
    ((ButtonPattern.new themesVibePalette).toggle_focus).selected = false ∧
    ("aria-pressed", "false") ∈
      ((ButtonPattern.new themesVibePalette).toggle_focus).accessibility_attributes :=
  ⟨rfl, by decide⟩

/-- C10 (amended): for every `ButtonPattern`, `accessibility_attributes`
contains `("aria-disabled", "true")` iff disabled, `("aria-busy", "true")`
iff loading, and `("aria-pressed", "true")` iff selected; `"true"` is the
only value ever paired with `aria-disabled` or `aria-busy`, and the only
other `aria-pressed` pair is `("aria-pressed", "false")`, contributed by
the focus management's data attributes exactly when its screen-reader
pattern is `ToggleButton` (e.g. after `toggle_focus()`). -/
theorem C10_aria_attributes (bp : ButtonPattern) :
    ((("aria-disabled", "true") ∈ bp.accessibility_attributes) ↔ bp.disabled = true) ∧
    ((("aria-busy", "true") ∈ bp.accessibility_attributes) ↔ bp.loading = true) ∧
    ((("aria-pressed", "true") ∈ bp.accessibility_attributes) ↔ bp.selected = true) ∧
    (∀ v, ("aria-disabled", v) ∈ bp.accessibility_attributes → v = "true") ∧
    (∀ v, ("aria-busy", v) ∈ bp.accessibility_attributes → v = "true") ∧
    (∀ v, ("aria-pressed", v) ∈ bp.accessibility_attributes →
      v = "true" ∨ v = "false") ∧
    ((("aria-pressed", "false") ∈ bp.accessibility_attributes) ↔
      bp.focus_management.screenReaderPattern =
        some ScreenReaderPattern.ToggleButton) := by
  obtain ⟨d, l, sel, as, ie, fm, cc, p⟩ := bp
  unfold ButtonPattern.accessibility_attributes
  cases d <;> cases l <;> cases sel <;>
    simp [List.mem_append, data_attributes_no_disabled,
      data_attributes_no_busy, data_attributes_pressed] <;>
    tauto

/-- Witness for the amended C10: a selected toggle-focus button emits
`("aria-pressed", "true")`, and an unselected one still carries
`("aria-pressed", "false")` from its focus management. -/
theorem C10_aria_attributes_witness :
    ("aria-pressed", "true") ∈
      ((((ButtonPattern.new themesVibePalette).toggle_focus).setSelected
        true)).accessibility_attributes ∧
    ("aria-pressed", "false") ∈
      ((ButtonPattern.new themesVibePalette).toggle_focus).accessibility_attributes := by
  constructor
  · exact (C10_aria_attributes
      (((ButtonPattern.new themesVibePalette).toggle_focus).setSelected true)).2.2.1.mpr rfl
  · exact (C10_aria_attributes
      ((ButtonPattern.new themesVibePalette).toggle_focus)).2.2.2.2.2.2.mpr rfl

end Jupiter
